import Mathlib

/-!
Verification of the bird-quiz question-generation engine and quiz state
machine, shallowly embedded from the TypeScript sources
(`src/web/src/utils/dataLoader.ts`, `src/web/src/utils/questionGenerator/…`,
`src/web/src/utils/questionGenerator.ts`, `src/web/src/reducers/quizReducer.ts`,
`src/web/src/hooks/useQuiz.ts` and companion modules).

Randomness (`Math.random()`) is embedded as a deterministic stream of
natural numbers together with a cursor: each call
`Math.floor(Math.random() * n)` consumes one stream element and yields its
value modulo `n`.  All source functions are translated with the exact
draw order of the TypeScript code.
-/

namespace BirdQuiz

/-- State of the ambient random number generator: an infinite stream of
draws and the index of the next draw. -/
structure RandState where
  stream : Nat → Nat
  idx : Nat

/-- State-passing embedding of computations that consume random draws. -/
def Rand (α : Type) : Type := RandState → α × RandState

instance : Monad Rand where
  pure a := fun s => (a, s)
  bind x f := fun s => let p := x s; f p.1 p.2

/-- Embeds `Math.floor(Math.random() * n)`: consume one draw, reduced modulo `n`. -/
def randBelow (n : Nat) : Rand Nat :=
  fun s => (s.stream s.idx % n, ⟨s.stream, s.idx + 1⟩)

/-- A photo record; only the cached path participates in generator logic. -/
structure BirdPhoto where
  cached : String
  deriving Repr, DecidableEq

/-- A recording; only the cached audio path participates in generator logic. -/
structure BirdRecording where
  cachedAudio : String
  deriving Repr, DecidableEq

/-- A bird species record (fields used by the question generators). -/
structure Bird where
  id : String
  commonName : String
  photos : List BirdPhoto
  recordings : List BirdRecording
  deriving Repr, DecidableEq

instance : Inhabited Bird := ⟨⟨"", "", [], []⟩⟩
instance : Inhabited BirdPhoto := ⟨⟨""⟩⟩
instance : Inhabited BirdRecording := ⟨⟨""⟩⟩

/-- Builds a media URL: the base URL (empty by default) followed by a slash
and the cached path. -/
def mediaUrl (cached : String) : String := "/" ++ cached

/-- JavaScript truthiness of a `string | undefined` value. -/
def optStrTruthy : Option String → Bool
  | none => false
  | some s => s ≠ ""

/-! ## dataLoader.ts -/

/-- Embeds `getRandomPhoto` (dataLoader.ts): falls back to the placeholder path
when the bird has no photos; otherwise one uniform draw. -/
def getRandomPhoto (bird : Bird) : Rand String :=
  if bird.photos.length = 0 then
    pure "/placeholder-bird.jpg"
  else do
    let randomIndex ← randBelow bird.photos.length
    pure (mediaUrl (bird.photos.getD randomIndex default).cached)

/-- Embeds `getRecordingAudioUrl` (dataLoader.ts). -/
def getRecordingAudioUrl (recording : BirdRecording) : String :=
  mediaUrl recording.cachedAudio

/-- Embeds `getRandomRecording` (dataLoader.ts): `null` when the bird has no
recordings. -/
def getRandomRecording (bird : Bird) : Rand (Option BirdRecording) :=
  if bird.recordings.length = 0 then
    pure none
  else do
    let randomIndex ← randBelow bird.recordings.length
    pure (some (bird.recordings.getD randomIndex default))

/-- Embeds `getRandomPhotoDifferentFrom` (dataLoader.ts). -/
def getRandomPhotoDifferentFrom (bird : Bird) (excludeUrl : String) :
    Rand (Option String) :=
  if bird.photos.length = 0 then
    pure none
  else
    let availablePhotos := bird.photos.filter (fun photo => mediaUrl photo.cached ≠ excludeUrl)
    if availablePhotos.length = 0 then
      pure none
    else do
      let randomIndex ← randBelow availablePhotos.length
      pure (some (mediaUrl (availablePhotos.getD randomIndex default).cached))

/-- Embeds `getRandomRecordingDifferentFrom` (dataLoader.ts). -/
def getRandomRecordingDifferentFrom (bird : Bird) (excludeUrl : String) :
    Rand (Option BirdRecording) :=
  if bird.recordings.length = 0 then
    pure none
  else
    let availableRecordings :=
      bird.recordings.filter (fun recording => getRecordingAudioUrl recording ≠ excludeUrl)
    if availableRecordings.length = 0 then
      pure none
    else do
      let randomIndex ← randBelow availableRecordings.length
      pure (some (availableRecordings.getD randomIndex default))

/-- One step of the Fisher–Yates loop body: swap positions `i` and `j`. -/
def listSwap {α : Type} (l : List α) (i j : Nat) : List α :=
  match l.get? i, l.get? j with
  | some a, some b => (l.set i b).set j a
  | _, _ => l

/-- The Fisher–Yates loop of `shuffleArray`, with `i` running downward. -/
def fyLoop {α : Type} (l : List α) : Nat → Rand (List α)
  | 0 => pure l
  | i + 1 => do
    let j ← randBelow (i + 2)
    fyLoop (listSwap l (i + 1) j) i

/-- Embeds `shuffleArray` (dataLoader.ts): Fisher–Yates shuffle. -/
def shuffleArray {α : Type} (l : List α) : Rand (List α) :=
  fyLoop l (l.length - 1)

/-- Embeds `getWrongAnswers` (dataLoader.ts): filter out the correct bird by id,
shuffle, take `count`. -/
def getWrongAnswers (allBirds : List Bird) (correctBird : Bird) (count : Nat) :
    Rand (List Bird) := do
  let wrongBirds := allBirds.filter (fun bird => bird.id ≠ correctBird.id)
  let shuffled ← shuffleArray wrongBirds
  pure (shuffled.take count)

/-! ## part_011: selectRandomMedia -/

/-- Embeds `UsedMedia` (mediaSelection module). -/
structure UsedMedia where
  photoUrl : Option String
  audioUrl : Option String
  deriving Repr, DecidableEq

/-- Embeds `selectRandomMedia` (mediaSelection module): filters out the used
media keys, but falls back to the first photo / first recording when the
filtered set is empty. -/
def selectRandomMedia (bird : Bird) (usedMedia : UsedMedia) :
    Rand (Option BirdPhoto × Option BirdRecording) := do
  let availablePhotos := bird.photos.filter
    (fun photo => some photo.cached ≠ usedMedia.photoUrl)
  let availableRecordings := bird.recordings.filter
    (fun recording => some recording.cachedAudio ≠ usedMedia.audioUrl)
  let selectedPhoto ←
    if availablePhotos.length > 0 then do
      let i ← randBelow availablePhotos.length
      pure (availablePhotos.get? i)
    else
      pure bird.photos.head?
  let selectedRecording ←
    if availableRecordings.length > 0 then do
      let i ← randBelow availableRecordings.length
      pure (availableRecordings.get? i)
    else
      pure bird.recordings.head?
  pure (selectedPhoto, selectedRecording)

/-! ## Types (types/bird.ts, questionGenerator/types.ts) -/

/-- Answer format tag. -/
inductive AnswerFormat where
  | text
  | photo
  | audio
  | mixed
  deriving Repr, DecidableEq

/-- Question type tag. -/
inductive QType where
  | photoToName
  | audioToName
  | photoAudioToName
  | nameToMedia
  | mixedType
  deriving Repr, DecidableEq

/-- Display type of an answer option (`MixedAnswerType`). -/
inductive OptionType where
  | text
  | textImage
  | imageOnly
  | audioOnly
  deriving Repr, DecidableEq

/-- Embeds `QuestionOption` (types/bird.ts). -/
structure QuestionOption where
  id : String
  type : OptionType
  label : String
  imageUrl : Option String := none
  audioUrl : Option String := none
  hideLabel : Bool := false
  deriving Repr, DecidableEq

/-- Embeds `Question` (types/bird.ts); `id` carries the `Date.now()` suffix as an
explicit `now` argument of the generators. -/
structure Question where
  id : String
  questionType : QType
  answerFormat : AnswerFormat
  bird : Bird
  recording : Option BirdRecording := none
  questionText : String
  correctAnswer : String
  options : List QuestionOption
  mediaUrl : Option String := none
  mediaType : Option String := none
  secondaryMediaUrl : Option String := none
  secondaryMediaType : Option String := none
  deriving Repr, DecidableEq

/-! ## validation/filterBirdsByMedia.ts -/

/-- Embeds `filterBirdsWithPhotos`. -/
def filterBirdsWithPhotos (birds : List Bird) : List Bird :=
  birds.filter (fun bird => bird.photos.length > 0)

/-- Embeds `filterBirdsWithRecordings`. -/
def filterBirdsWithRecordings (birds : List Bird) : List Bird :=
  birds.filter (fun bird => bird.recordings.length > 0)

/-- Embeds `filterBirdsWithBothMedia`. -/
def filterBirdsWithBothMedia (birds : List Bird) : List Bird :=
  birds.filter (fun bird => bird.photos.length > 0 && bird.recordings.length > 0)

/-- Embeds `filterBirdsByAnswerFormat`. -/
def filterBirdsByAnswerFormat (birds : List Bird) (answerFormat : AnswerFormat) :
    List Bird :=
  match answerFormat with
  | .photo => filterBirdsWithPhotos birds
  | .audio => filterBirdsWithRecordings birds
  | .text => birds
  | .mixed => birds

/-! ## questionGenerator/constants.ts -/

def MAX_GENERATION_ATTEMPTS : Nat := 10
def MIN_BIRDS_FOR_QUESTION : Nat := 4
def WRONG_ANSWERS_COUNT : Nat := 3
def QUESTION_MODALITIES : List String := ["photo", "audio"]
def MIXED_ANSWER_TYPES : List OptionType :=
  [.text, .textImage, .imageOnly, .audioOnly]
def NAME_TO_MEDIA_ANSWER_TYPES : List OptionType :=
  [.imageOnly, .audioOnly]

/-! ## options/createMixedOption.ts (modular) -/

/-- Embeds `createTextOption`. -/
def createTextOption (bird : Bird) (hideLabel : Bool) : QuestionOption :=
  { id := bird.id, label := bird.commonName, type := .text, hideLabel := hideLabel }

/-- Embeds `createTextImageOption`: downgrades to text when no alternative photo. -/
def createTextImageOption (bird : Bird) (excludePhotoUrl : Option String)
    (hideLabel : Bool) : Rand QuestionOption := do
  if optStrTruthy excludePhotoUrl then do
    let alternativePhoto ← getRandomPhotoDifferentFrom bird (excludePhotoUrl.getD "")
    match alternativePhoto with
    | none => pure (createTextOption bird hideLabel)
    | some imageUrl =>
      pure { id := bird.id, imageUrl := some imageUrl, label := bird.commonName,
             type := .textImage, hideLabel := hideLabel }
  else do
    let imageUrl ← getRandomPhoto bird
    pure { id := bird.id, imageUrl := some imageUrl, label := bird.commonName,
           type := .textImage, hideLabel := hideLabel }

/-- Embeds `createImageOnlyOption`: downgrades to text when no alternative photo.
The source guard `hideLabel !== undefined ? hideLabel : true` always takes
its first branch because the caller destructures `hideLabel = false`. -/
def createImageOnlyOption (bird : Bird) (excludePhotoUrl : Option String)
    (hideLabel : Bool) : Rand QuestionOption := do
  if optStrTruthy excludePhotoUrl then do
    let alternativePhoto ← getRandomPhotoDifferentFrom bird (excludePhotoUrl.getD "")
    match alternativePhoto with
    | none => pure (createTextOption bird hideLabel)
    | some imageUrl =>
      pure { id := bird.id, imageUrl := some imageUrl, label := bird.commonName,
             type := .imageOnly, hideLabel := hideLabel }
  else do
    let imageUrl ← getRandomPhoto bird
    pure { id := bird.id, imageUrl := some imageUrl, label := bird.commonName,
           type := .imageOnly, hideLabel := hideLabel }

/-- Embeds `createAudioOnlyOption`: downgrades to text when no recording or no
alternative recording. -/
def createAudioOnlyOption (bird : Bird) (recording : Option BirdRecording)
    (excludeAudioUrl : Option String) (hideLabel : Bool) : Rand QuestionOption := do
  if optStrTruthy excludeAudioUrl then
    match recording with
    | none => pure (createTextOption bird hideLabel)
    | some _ => do
      let alternativeRecording ← getRandomRecordingDifferentFrom bird (excludeAudioUrl.getD "")
      match alternativeRecording with
      | none => pure (createTextOption bird hideLabel)
      | some audioRecording =>
        pure { id := bird.id, audioUrl := some (getRecordingAudioUrl audioRecording),
               label := bird.commonName, type := .audioOnly, hideLabel := hideLabel }
  else
    pure { id := bird.id,
           audioUrl := recording.map getRecordingAudioUrl,
           label := bird.commonName, type := .audioOnly, hideLabel := hideLabel }

/-- Embeds `createMixedOption` (modular), with the caller-side default
`hideLabel = false` made explicit. -/
def createMixedOption (bird : Bird) (type : OptionType)
    (recording : Option BirdRecording) (excludePhotoUrl excludeAudioUrl : Option String)
    (hideLabel : Bool := false) : Rand QuestionOption :=
  match type with
  | .text => pure (createTextOption bird hideLabel)
  | .textImage => createTextImageOption bird excludePhotoUrl hideLabel
  | .imageOnly => createImageOnlyOption bird excludePhotoUrl hideLabel
  | .audioOnly => createAudioOnlyOption bird recording excludeAudioUrl hideLabel

/-! ## options/createAnswerOptions.ts (modular) -/

/-- Embeds `CreateAnswerOptionsParams`. -/
structure CreateAnswerOptionsParams where
  correctBird : Bird
  wrongBirds : List Bird
  excludePhotoUrl : Option String := none
  excludeAudioUrl : Option String := none
  isNameToMediaQuestion : Bool := false
  deriving Repr

/-- Embeds `createTextOptions` (modular). -/
def createTextOptions (allBirds : List Bird) : Rand (List QuestionOption) :=
  shuffleArray (allBirds.map (fun bird =>
    { id := bird.id, label := bird.commonName, type := OptionType.text }))

/-- The per-bird `imageUrl` computation of `createPhotoOptions`: the
correct bird under a truthy exclusion takes the alternative-photo path,
everyone else takes `getRandomPhoto` with its falsy-string guard. -/
def photoOptionItem (correctBird : Bird) (excludePhotoUrl : Option String)
    (bird : Bird) : Rand (Option String) :=
  if bird.id = correctBird.id ∧ optStrTruthy excludePhotoUrl then
    getRandomPhotoDifferentFrom bird (excludePhotoUrl.getD "")
  else do
    let imageUrl ← getRandomPhoto bird
    if imageUrl = "" then pure none else pure (some imageUrl)

/-- Per-bird loop of `createPhotoOptions`; `none` aborts the whole set. -/
def createPhotoOptionsLoop (correctBird : Bird) (excludePhotoUrl : Option String) :
    List Bird → Rand (Option (List QuestionOption))
  | [] => pure (some [])
  | bird :: rest => do
    let item ← photoOptionItem correctBird excludePhotoUrl bird
    match item with
    | none => pure none
    | some imageUrl => do
      let tail ← createPhotoOptionsLoop correctBird excludePhotoUrl rest
      match tail with
      | none => pure none
      | some opts =>
        pure (some ({ id := bird.id, imageUrl := some imageUrl,
                      label := bird.commonName, type := OptionType.imageOnly,
                      hideLabel := true } :: opts))

/-- Embeds `createPhotoOptions` (modular). -/
def createPhotoOptions (allBirds : List Bird) (correctBird : Bird)
    (excludePhotoUrl : Option String) : Rand (Option (List QuestionOption)) := do
  let built ← createPhotoOptionsLoop correctBird excludePhotoUrl allBirds
  match built with
  | none => pure none
  | some opts => do
    let shuffled ← shuffleArray opts
    pure (some shuffled)

/-- The per-bird `audioUrl` computation of `createAudioOptions`: the
correct bird under a truthy exclusion takes the alternative-recording
path, everyone else keeps the recording already drawn. -/
def audioOptionItem (correctBird : Bird) (excludeAudioUrl : Option String)
    (bird : Bird) (recording : BirdRecording) : Rand (Option String) :=
  if bird.id = correctBird.id ∧ optStrTruthy excludeAudioUrl then do
    let alternativeRecording ← getRandomRecordingDifferentFrom bird (excludeAudioUrl.getD "")
    match alternativeRecording with
    | none => pure none
    | some alt => pure (some (getRecordingAudioUrl alt))
  else
    pure (some (getRecordingAudioUrl recording))

/-- Per-bird loop of `createAudioOptions`; `none` aborts the whole set. -/
def createAudioOptionsLoop (correctBird : Bird) (excludeAudioUrl : Option String) :
    List Bird → Rand (Option (List QuestionOption))
  | [] => pure (some [])
  | bird :: rest => do
    let recording ← getRandomRecording bird
    match recording with
    | none => pure none
    | some recording => do
      let item ← audioOptionItem correctBird excludeAudioUrl bird recording
      match item with
      | none => pure none
      | some audioUrl => do
        let tail ← createAudioOptionsLoop correctBird excludeAudioUrl rest
        match tail with
        | none => pure none
        | some opts =>
          pure (some ({ id := bird.id, audioUrl := some audioUrl,
                        label := bird.commonName, type := OptionType.audioOnly,
                        hideLabel := true } :: opts))

/-- Embeds `createAudioOptions` (modular). -/
def createAudioOptions (allBirds : List Bird) (correctBird : Bird)
    (excludeAudioUrl : Option String) : Rand (Option (List QuestionOption)) := do
  let built ← createAudioOptionsLoop correctBird excludeAudioUrl allBirds
  match built with
  | none => pure none
  | some opts => do
    let shuffled ← shuffleArray opts
    pure (some shuffled)

/-- Per-bird loop of `createMixedOptions` (modular). -/
def createMixedOptionsLoop (correctBird : Bird)
    (excludePhotoUrl excludeAudioUrl : Option String) (answerTypes : List OptionType) :
    List Bird → Rand (List QuestionOption)
  | [] => pure []
  | bird :: rest => do
    let t ← randBelow answerTypes.length
    let randomType := answerTypes.getD t OptionType.text
    let recording ← getRandomRecording bird
    let isCorrectBird := bird.id = correctBird.id
    let option ← createMixedOption bird randomType recording
      (if isCorrectBird then excludePhotoUrl else none)
      (if isCorrectBird then excludeAudioUrl else none)
    let tail ← createMixedOptionsLoop correctBird excludePhotoUrl excludeAudioUrl answerTypes rest
    pure (option :: tail)

/-- Embeds `createMixedOptions` (modular): the candidate type set depends on
`isNameToMediaQuestion`. -/
def createMixedOptions (allBirds : List Bird) (correctBird : Bird)
    (excludePhotoUrl excludeAudioUrl : Option String)
    (isNameToMediaQuestion : Bool) : Rand (List QuestionOption) := do
  let answerTypes := if isNameToMediaQuestion then NAME_TO_MEDIA_ANSWER_TYPES
                     else MIXED_ANSWER_TYPES
  let options ← createMixedOptionsLoop correctBird excludePhotoUrl excludeAudioUrl
    answerTypes allBirds
  shuffleArray options

/-- Embeds `createAnswerOptions` (modular). -/
def createAnswerOptions (answerFormat : AnswerFormat)
    (params : CreateAnswerOptionsParams) : Rand (Option (List QuestionOption)) :=
  let allBirds := params.correctBird :: params.wrongBirds
  match answerFormat with
  | .text => do
    let opts ← createTextOptions allBirds
    pure (some opts)
  | .photo => createPhotoOptions allBirds params.correctBird params.excludePhotoUrl
  | .audio => createAudioOptions allBirds params.correctBird params.excludeAudioUrl
  | .mixed => do
    let opts ← createMixedOptions allBirds params.correctBird
      params.excludePhotoUrl params.excludeAudioUrl params.isNameToMediaQuestion
    pure (some opts)

/-! ## generators (modular) -/

/-- Embeds `generatePhotoToNameQuestion` (generators/photoToName.ts); `now` stands
for the `Date.now()` suffix of the question id. -/
def generatePhotoToNameQuestion (now : String) (birds : List Bird)
    (answerFormat : AnswerFormat) : Rand (Option Question) :=
  if birds.length < MIN_BIRDS_FOR_QUESTION then pure none
  else
    let birdsWithPhotos := filterBirdsWithPhotos birds
    if birdsWithPhotos.length < 1 then pure none
    else do
      let ci ← randBelow birdsWithPhotos.length
      let correctBird := birdsWithPhotos.getD ci default
      let photoUrl ← getRandomPhoto correctBird
      let wrongBirds ← getWrongAnswers birds correctBird 3
      let options ← createAnswerOptions answerFormat
        { correctBird := correctBird, wrongBirds := wrongBirds,
          excludePhotoUrl := some photoUrl }
      match options with
      | none => pure none
      | some options =>
        pure (some
          { id := "photo-" ++ now, questionType := .photoToName,
            answerFormat := answerFormat, bird := correctBird,
            questionText := "What bird is this?",
            correctAnswer := correctBird.id, options := options,
            mediaUrl := some photoUrl, mediaType := some "photo" })

/-- Embeds `generateAudioToNameQuestion` (generators/audioToName.ts). -/
def generateAudioToNameQuestion (now : String) (birds : List Bird)
    (answerFormat : AnswerFormat) : Rand (Option Question) :=
  if birds.length < MIN_BIRDS_FOR_QUESTION then pure none
  else
    let birdsWithAudio := filterBirdsWithRecordings birds
    if birdsWithAudio.length < 1 then pure none
    else do
      let ci ← randBelow birdsWithAudio.length
      let correctBird := birdsWithAudio.getD ci default
      let recording ← getRandomRecording correctBird
      match recording with
      | none => pure none
      | some recording => do
        let audioUrl := getRecordingAudioUrl recording
        let wrongBirds ← getWrongAnswers birds correctBird 3
        let options ← createAnswerOptions answerFormat
          { correctBird := correctBird, wrongBirds := wrongBirds,
            excludeAudioUrl := some audioUrl }
        match options with
        | none => pure none
        | some options =>
          pure (some
            { id := "audio-" ++ now, questionType := .audioToName,
              answerFormat := answerFormat, bird := correctBird,
              recording := some recording,
              questionText := "Which bird makes this sound?",
              correctAnswer := correctBird.id, options := options,
              mediaUrl := some audioUrl, mediaType := some "audio" })

/-- Embeds `generatePhotoAudioToNameQuestion` (generators/photoAudioToName.ts). -/
def generatePhotoAudioToNameQuestion (now : String) (birds : List Bird)
    (answerFormat : AnswerFormat) : Rand (Option Question) :=
  if birds.length < MIN_BIRDS_FOR_QUESTION then pure none
  else
    let birdsWithMedia := filterBirdsWithBothMedia birds
    if birdsWithMedia.length < 1 then pure none
    else do
      let ci ← randBelow birdsWithMedia.length
      let correctBird := birdsWithMedia.getD ci default
      let recording ← getRandomRecording correctBird
      match recording with
      | none => pure none
      | some recording => do
        let photoUrl ← getRandomPhoto correctBird
        let audioUrl := getRecordingAudioUrl recording
        let wrongBirds ← getWrongAnswers birds correctBird 3
        let options ← createAnswerOptions answerFormat
          { correctBird := correctBird, wrongBirds := wrongBirds,
            excludePhotoUrl := some photoUrl, excludeAudioUrl := some audioUrl }
        match options with
        | none => pure none
        | some options =>
          pure (some
            { id := "photo-audio-" ++ now, questionType := .photoAudioToName,
              answerFormat := answerFormat, bird := correctBird,
              recording := some recording,
              questionText := "What bird is this?",
              correctAnswer := correctBird.id, options := options,
              mediaUrl := some photoUrl, mediaType := some "photo",
              secondaryMediaUrl := some audioUrl,
              secondaryMediaType := some "audio" })

/-- Question text of a modular name-to-media question. -/
def nameToMediaQuestionText : AnswerFormat → String
  | .photo => "Which photo shows the..."
  | .audio => "Which sound belongs to the..."
  | _ => "Which answer shows the..."

/-- Embeds `generateNameToMediaQuestion` (generators/nameToMedia.ts): rejects the
`text` answer format unconditionally, and requires the format-eligible
sub-pool to hold at least `MIN_BIRDS_FOR_QUESTION` birds. -/
def generateNameToMediaQuestion (now : String) (birds : List Bird)
    (answerFormat : AnswerFormat) : Rand (Option Question) :=
  if birds.length < MIN_BIRDS_FOR_QUESTION then pure none
  else if answerFormat = .text then pure none
  else
    let validBirds := filterBirdsByAnswerFormat birds answerFormat
    if validBirds.length < MIN_BIRDS_FOR_QUESTION then pure none
    else do
      let ci ← randBelow validBirds.length
      let correctBird := validBirds.getD ci default
      let wrongBirds ← getWrongAnswers validBirds correctBird 3
      let options ← createAnswerOptions answerFormat
        { correctBird := correctBird, wrongBirds := wrongBirds,
          isNameToMediaQuestion := true }
      match options with
      | none => pure none
      | some options =>
        pure (some
          { id := "name-to-media-" ++ now, questionType := .nameToMedia,
            answerFormat := answerFormat, bird := correctBird,
            questionText := nameToMediaQuestionText answerFormat,
            correctAnswer := correctBird.id, options := options })

/-- Embeds `generateMixedQuestion` (generators/mixed.ts): one draw chooses the
prompt modality, then delegates. -/
def generateMixedQuestion (now : String) (birds : List Bird)
    (answerFormat : AnswerFormat) : Rand (Option Question) := do
  let m ← randBelow QUESTION_MODALITIES.length
  let questionModality := QUESTION_MODALITIES.getD m ""
  if questionModality = "photo" then
    generatePhotoToNameQuestion now birds answerFormat
  else
    generateAudioToNameQuestion now birds answerFormat

/-! ## questionGenerator/index.ts: orchestrator -/

/-- Dispatch of the orchestrator switch to the matching generator. -/
def runGenerator (now : String) (birds : List Bird) (questionType : QType)
    (answerFormat : AnswerFormat) : Rand (Option Question) :=
  match questionType with
  | .photoToName => generatePhotoToNameQuestion now birds answerFormat
  | .audioToName => generateAudioToNameQuestion now birds answerFormat
  | .photoAudioToName => generatePhotoAudioToNameQuestion now birds answerFormat
  | .nameToMedia => generateNameToMediaQuestion now birds answerFormat
  | .mixedType => generateMixedQuestion now birds answerFormat

/-- Embeds `QuizSettings` (fields used by the orchestrator). -/
structure QuizSettings where
  enabledQuestionTypes : List QType
  enabledAnswerFormats : List AnswerFormat
  deriving Repr

/-- One iteration body of the orchestrator retry loop: draw a question
type and an answer format uniformly from the enabled sets, then dispatch. -/
def genAttempt (now : String) (birds : List Bird) (settings : QuizSettings) :
    Rand (Option Question) := do
  let ti ← randBelow settings.enabledQuestionTypes.length
  let questionType := settings.enabledQuestionTypes.getD ti QType.mixedType
  let fi ← randBelow settings.enabledAnswerFormats.length
  let answerFormat := settings.enabledAnswerFormats.getD fi AnswerFormat.mixed
  runGenerator now birds questionType answerFormat

/-- The orchestrator retry loop of `generateQuestion`
(questionGenerator/index.ts): `attempts` counts completed attempts, and is
returned alongside the result so that the attempt bound is observable. -/
def genLoop (now : String) (birds : List Bird) (settings : QuizSettings)
    (attempts : Nat) : Rand (Option Question × Nat) :=
  if _h : attempts < MAX_GENERATION_ATTEMPTS then do
    let question ← genAttempt now birds settings
    match question with
    | some question => pure (some question, attempts)
    | none => genLoop now birds settings (attempts + 1)
  else
    pure (none, attempts)
termination_by MAX_GENERATION_ATTEMPTS - attempts

/-- Embeds `generateQuestion` (questionGenerator/index.ts). -/
def generateQuestion (now : String) (birds : List Bird)
    (settings : QuizSettings) : Rand (Option Question) :=
  if birds.length < MIN_BIRDS_FOR_QUESTION then pure none
  else do
    let r ← genLoop now birds settings 0
    pure r.1

/-! ## questionGenerator.ts (legacy implementation) -/

/-- Embeds `createMixedOption` (legacy, questionGenerator.ts): `hideLabel` is an
optional parameter that callers leave `undefined`. -/
def legacyCreateMixedOption (bird : Bird) (type : OptionType)
    (recording : Option BirdRecording) (excludePhotoUrl excludeAudioUrl : Option String)
    (hideLabel : Option Bool) : Rand QuestionOption :=
  match type with
  | .text =>
    pure { id := bird.id, label := bird.commonName, type := .text,
           hideLabel := hideLabel.getD false }
  | .textImage => do
    if optStrTruthy excludePhotoUrl then do
      let alternativePhoto ← getRandomPhotoDifferentFrom bird (excludePhotoUrl.getD "")
      match alternativePhoto with
      | none =>
        pure { id := bird.id, label := bird.commonName, type := .text,
               hideLabel := hideLabel.getD false }
      | some imageUrl =>
        pure { id := bird.id, imageUrl := some imageUrl, label := bird.commonName,
               type := .textImage, hideLabel := hideLabel.getD false }
    else do
      let imageUrl ← getRandomPhoto bird
      pure { id := bird.id, imageUrl := some imageUrl, label := bird.commonName,
             type := .textImage, hideLabel := hideLabel.getD false }
  | .imageOnly => do
    if optStrTruthy excludePhotoUrl then do
      let alternativePhoto ← getRandomPhotoDifferentFrom bird (excludePhotoUrl.getD "")
      match alternativePhoto with
      | none =>
        pure { id := bird.id, label := bird.commonName, type := .text,
               hideLabel := hideLabel.getD false }
      | some imageUrl =>
        pure { id := bird.id, imageUrl := some imageUrl, label := bird.commonName,
               type := .imageOnly, hideLabel := hideLabel.getD true }
    else do
      let imageUrl ← getRandomPhoto bird
      pure { id := bird.id, imageUrl := some imageUrl, label := bird.commonName,
             type := .imageOnly, hideLabel := hideLabel.getD true }
  | .audioOnly => do
    if optStrTruthy excludeAudioUrl then
      match recording with
      | none =>
        pure { id := bird.id, label := bird.commonName, type := .text,
               hideLabel := hideLabel.getD false }
      | some _ => do
        let alternativeRecording ← getRandomRecordingDifferentFrom bird (excludeAudioUrl.getD "")
        match alternativeRecording with
        | none =>
          pure { id := bird.id, label := bird.commonName, type := .text,
                 hideLabel := hideLabel.getD false }
        | some audioRecording =>
          pure { id := bird.id, audioUrl := some (getRecordingAudioUrl audioRecording),
                 label := bird.commonName, type := .audioOnly,
                 hideLabel := hideLabel.getD true }
    else
      pure { id := bird.id, audioUrl := recording.map getRecordingAudioUrl,
             label := bird.commonName, type := .audioOnly,
             hideLabel := hideLabel.getD true }

/-- Per-bird loop of the legacy mixed answer case: the candidate display
type set is always the full four-element list. -/
def legacyMixedOptionsLoop (correctBird : Bird)
    (excludePhotoUrl excludeAudioUrl : Option String) :
    List Bird → Rand (List QuestionOption)
  | [] => pure []
  | bird :: rest => do
    let t ← randBelow MIXED_ANSWER_TYPES.length
    let randomType := MIXED_ANSWER_TYPES.getD t OptionType.text
    let recording ← getRandomRecording bird
    let isCorrectBird := bird.id = correctBird.id
    let option ← legacyCreateMixedOption bird randomType recording
      (if isCorrectBird then excludePhotoUrl else none)
      (if isCorrectBird then excludeAudioUrl else none) none
    let tail ← legacyMixedOptionsLoop correctBird excludePhotoUrl excludeAudioUrl rest
    pure (option :: tail)

/-- Embeds `createAnswerOptions` (legacy, questionGenerator.ts): its text, photo
and audio cases are line-for-line the same code as the modular builders. -/
def legacyCreateAnswerOptions (correctBird : Bird) (wrongBirds : List Bird)
    (answerFormat : AnswerFormat) (excludePhotoUrl excludeAudioUrl : Option String) :
    Rand (Option (List QuestionOption)) :=
  let allBirds := correctBird :: wrongBirds
  match answerFormat with
  | .text => do
    let opts ← shuffleArray (allBirds.map (fun bird =>
      { id := bird.id, label := bird.commonName, type := OptionType.text }))
    pure (some opts)
  | .photo => do
    let built ← createPhotoOptionsLoop correctBird excludePhotoUrl allBirds
    match built with
    | none => pure none
    | some opts => do
      let shuffled ← shuffleArray opts
      pure (some shuffled)
  | .audio => do
    let built ← createAudioOptionsLoop correctBird excludeAudioUrl allBirds
    match built with
    | none => pure none
    | some opts => do
      let shuffled ← shuffleArray opts
      pure (some shuffled)
  | .mixed => do
    let options ← legacyMixedOptionsLoop correctBird excludePhotoUrl excludeAudioUrl allBirds
    let shuffled ← shuffleArray options
    pure (some shuffled)

/-- Embeds `generatePhotoQuestionWithFormat` (legacy). -/
def legacyGeneratePhotoQuestionWithFormat (now : String) (birds : List Bird)
    (answerFormat : AnswerFormat) : Rand (Option Question) :=
  if birds.length < 4 then pure none
  else
    let birdsWithPhotos := birds.filter (fun b => b.photos.length > 0)
    if birdsWithPhotos.length < 1 then pure none
    else do
      let ci ← randBelow birdsWithPhotos.length
      let correctBird := birdsWithPhotos.getD ci default
      let photoUrl ← getRandomPhoto correctBird
      let wrongBirds ← getWrongAnswers birds correctBird 3
      let options ← legacyCreateAnswerOptions correctBird wrongBirds answerFormat
        (some photoUrl) none
      match options with
      | none => pure none
      | some options =>
        pure (some
          { id := "photo-" ++ now, questionType := .photoToName,
            answerFormat := answerFormat, bird := correctBird,
            questionText := "What bird is this?",
            correctAnswer := correctBird.id, options := options,
            mediaUrl := some photoUrl, mediaType := some "photo" })

/-- Embeds `generateAudioQuestionWithFormat` (legacy). -/
def legacyGenerateAudioQuestionWithFormat (now : String) (birds : List Bird)
    (answerFormat : AnswerFormat) : Rand (Option Question) :=
  if birds.length < 4 then pure none
  else
    let birdsWithAudio := birds.filter (fun b => b.recordings.length > 0)
    if birdsWithAudio.length < 1 then pure none
    else do
      let ci ← randBelow birdsWithAudio.length
      let correctBird := birdsWithAudio.getD ci default
      let recording ← getRandomRecording correctBird
      match recording with
      | none => pure none
      | some recording => do
        let audioUrl := getRecordingAudioUrl recording
        let wrongBirds ← getWrongAnswers birds correctBird 3
        let options ← legacyCreateAnswerOptions correctBird wrongBirds answerFormat
          none (some audioUrl)
        match options with
        | none => pure none
        | some options =>
          pure (some
            { id := "audio-" ++ now, questionType := .audioToName,
              answerFormat := answerFormat, bird := correctBird,
              recording := some recording,
              questionText := "Which bird makes this sound?",
              correctAnswer := correctBird.id, options := options,
              mediaUrl := some audioUrl, mediaType := some "audio" })

/-- Embeds `generatePhotoAudioQuestion` (legacy). -/
def legacyGeneratePhotoAudioQuestion (now : String) (birds : List Bird)
    (answerFormat : AnswerFormat) : Rand (Option Question) :=
  if birds.length < 4 then pure none
  else
    let birdsWithMedia := birds.filter
      (fun b => b.photos.length > 0 && b.recordings.length > 0)
    if birdsWithMedia.length < 1 then pure none
    else do
      let ci ← randBelow birdsWithMedia.length
      let correctBird := birdsWithMedia.getD ci default
      let recording ← getRandomRecording correctBird
      match recording with
      | none => pure none
      | some recording => do
        let photoUrl ← getRandomPhoto correctBird
        let audioUrl := getRecordingAudioUrl recording
        let wrongBirds ← getWrongAnswers birds correctBird 3
        let options ← legacyCreateAnswerOptions correctBird wrongBirds answerFormat
          (some photoUrl) (some audioUrl)
        match options with
        | none => pure none
        | some options =>
          pure (some
            { id := "photo-audio-" ++ now, questionType := .photoAudioToName,
              answerFormat := answerFormat, bird := correctBird,
              recording := some recording,
              questionText := "What bird is this?",
              correctAnswer := correctBird.id, options := options,
              mediaUrl := some photoUrl, mediaType := some "photo",
              secondaryMediaUrl := some audioUrl,
              secondaryMediaType := some "audio" })

/-- Question text of a legacy name-to-media question (embeds the name). -/
def legacyNameToMediaQuestionText (answerFormat : AnswerFormat) (name : String) :
    String :=
  match answerFormat with
  | .photo => "Which photo shows the " ++ name ++ "?"
  | .audio => "Which sound belongs to the " ++ name ++ "?"
  | _ => "Which answer shows the " ++ name ++ "?"

/-- Embeds `generateNameToMediaQuestion` (legacy, questionGenerator.ts): no
`isNameToMediaQuestion` flag reaches the mixed option builder. -/
def legacyGenerateNameToMediaQuestion (now : String) (birds : List Bird)
    (answerFormat : AnswerFormat) : Rand (Option Question) :=
  if birds.length < 4 then pure none
  else if answerFormat = .text then pure none
  else
    let validBirds :=
      match answerFormat with
      | .photo => birds.filter (fun b => b.photos.length > 0)
      | .audio => birds.filter (fun b => b.recordings.length > 0)
      | _ => birds
    if validBirds.length < 4 then pure none
    else do
      let ci ← randBelow validBirds.length
      let correctBird := validBirds.getD ci default
      let wrongBirds ← getWrongAnswers validBirds correctBird 3
      let options ← legacyCreateAnswerOptions correctBird wrongBirds answerFormat
        none none
      match options with
      | none => pure none
      | some options =>
        pure (some
          { id := "name-to-media-" ++ now, questionType := .nameToMedia,
            answerFormat := answerFormat, bird := correctBird,
            questionText := legacyNameToMediaQuestionText answerFormat correctBird.commonName,
            correctAnswer := correctBird.id, options := options })

/-- Embeds `generateMixedQuestionWithFormat` (legacy). -/
def legacyGenerateMixedQuestionWithFormat (now : String) (birds : List Bird)
    (answerFormat : AnswerFormat) : Rand (Option Question) :=
  if birds.length < 4 then pure none
  else do
    let m ← randBelow QUESTION_MODALITIES.length
    let questionModality := QUESTION_MODALITIES.getD m ""
    if questionModality = "photo" then
      legacyGeneratePhotoQuestionWithFormat now birds answerFormat
    else
      legacyGenerateAudioQuestionWithFormat now birds answerFormat

/-- Dispatch of the legacy orchestrator switch. -/
def legacyRunGenerator (now : String) (birds : List Bird) (questionType : QType)
    (answerFormat : AnswerFormat) : Rand (Option Question) :=
  match questionType with
  | .photoToName => legacyGeneratePhotoQuestionWithFormat now birds answerFormat
  | .audioToName => legacyGenerateAudioQuestionWithFormat now birds answerFormat
  | .photoAudioToName => legacyGeneratePhotoAudioQuestion now birds answerFormat
  | .nameToMedia => legacyGenerateNameToMediaQuestion now birds answerFormat
  | .mixedType => legacyGenerateMixedQuestionWithFormat now birds answerFormat

/-- One iteration body of the legacy orchestrator retry loop. -/
def legacyGenAttempt (now : String) (birds : List Bird) (settings : QuizSettings) :
    Rand (Option Question) := do
  let ti ← randBelow settings.enabledQuestionTypes.length
  let questionType := settings.enabledQuestionTypes.getD ti QType.mixedType
  let fi ← randBelow settings.enabledAnswerFormats.length
  let answerFormat := settings.enabledAnswerFormats.getD fi AnswerFormat.mixed
  legacyRunGenerator now birds questionType answerFormat

/-- The legacy orchestrator retry loop (`maxAttempts = 10`). -/
def legacyGenLoop (now : String) (birds : List Bird) (settings : QuizSettings)
    (attempts : Nat) : Rand (Option Question × Nat) :=
  if _h : attempts < MAX_GENERATION_ATTEMPTS then do
    let question ← legacyGenAttempt now birds settings
    match question with
    | some question => pure (some question, attempts)
    | none => legacyGenLoop now birds settings (attempts + 1)
  else
    pure (none, attempts)
termination_by MAX_GENERATION_ATTEMPTS - attempts

/-- Embeds `generateQuestion` (legacy, questionGenerator.ts). -/
def legacyGenerateQuestion (now : String) (birds : List Bird)
    (settings : QuizSettings) : Rand (Option Question) :=
  if birds.length < 4 then pure none
  else do
    let r ← legacyGenLoop now birds settings 0
    pure r.1

/-! ## scoring.ts -/

/-- Embeds `calculateAccuracy`: `Math.round((correct / total) * 100)` with the
zero-total guard, rendered as round-half-up on rationals. -/
def calculateAccuracy (correct total : Nat) : Nat :=
  if total = 0 then 0 else (200 * correct + total) / (2 * total)

/-- Embeds `calculateScore` (scoring.ts). -/
def calculateScore (isCorrect isFirstTry : Bool) (currentStreak : Nat) : Nat :=
  if !isCorrect then 0
  else 10 + (if isFirstTry then 5 else 0) + min (currentStreak * 2) 10

/-! ## Progress (types/bird.ts, quizReducer.ts) -/

/-- One record of the rolling answer buffer. -/
structure AnswerRecord where
  timestamp : String
  speciesId : String
  correct : Bool
  questionType : QType
  answerFormat : AnswerFormat
  deriving Repr, DecidableEq

structure OverallStats where
  totalQuestions : Nat
  correct : Nat
  accuracy : Nat
  lastPlayed : String
  deriving Repr, DecidableEq

/-- Mode stats; `accuracy` is absent until the first recorded answer. -/
structure ModeStats where
  correct : Nat
  total : Nat
  accuracy : Option Nat := none
  deriving Repr, DecidableEq

/-- Per-species counters; `lastSeen` is absent until first update. -/
structure SpeciesStat where
  correct : Nat
  total : Nat
  lastSeen : Option String := none
  deriving Repr, DecidableEq

structure RollingStats where
  answers : List AnswerRecord
  currentStreak : Nat
  maxStreak : Nat
  totalAnswers : Nat
  deriving Repr, DecidableEq

/-- The `Progress` value; the species-stats object is an association list. -/
structure Progress where
  overallStats : OverallStats
  modeStats : ModeStats
  speciesStats : List (String × SpeciesStat)
  rollingStats : RollingStats
  deriving Repr, DecidableEq

/-- Embeds `DEFAULT_PROGRESS` (quizReducer.ts), with the startup timestamp empty. -/
def DEFAULT_PROGRESS : Progress :=
  { overallStats := { totalQuestions := 0, correct := 0, accuracy := 0, lastPlayed := "" },
    modeStats := { correct := 0, total := 0 },
    speciesStats := [],
    rollingStats := { answers := [], currentStreak := 0, maxStreak := 0, totalAnswers := 0 } }

def ROLLING_BUFFER_SIZE : Nat := 20

/-- The species-stats object update of `RECORD_ANSWER`: create a zeroed
entry when absent, then bump total / correct and stamp `lastSeen`. -/
def updateSpeciesStats (stats : List (String × SpeciesStat)) (speciesId : String)
    (correct : Bool) (timestamp : String) : List (String × SpeciesStat) :=
  let base := match stats.lookup speciesId with
    | none => ({ correct := 0, total := 0 } : SpeciesStat)
    | some s => s
  let bumped : SpeciesStat :=
    { correct := base.correct + (if correct then 1 else 0),
      total := base.total + 1,
      lastSeen := some timestamp }
  match stats.lookup speciesId with
  | none => stats ++ [(speciesId, bumped)]
  | some _ => stats.map (fun kv => if kv.1 = speciesId then (speciesId, bumped) else kv)

/-- Value semantics of the `RECORD_ANSWER` case of `quizReducer`: the
`Progress` value the reducer hands to the next state. -/
def recordAnswerPure (progress : Progress) (a : AnswerRecord) : Progress :=
  let newTotal := progress.overallStats.totalQuestions + 1
  let newCorrect := progress.overallStats.correct + (if a.correct then 1 else 0)
  let newModeTotal := progress.modeStats.total + 1
  let newModeCorrect := progress.modeStats.correct + (if a.correct then 1 else 0)
  let newAnswers :=
    (if progress.rollingStats.answers.length ≥ ROLLING_BUFFER_SIZE
     then progress.rollingStats.answers.tail
     else progress.rollingStats.answers) ++ [a]
  let newStreak := if a.correct then progress.rollingStats.currentStreak + 1 else 0
  { overallStats :=
      { totalQuestions := newTotal, correct := newCorrect,
        accuracy := calculateAccuracy newCorrect newTotal,
        lastPlayed := a.timestamp },
    modeStats :=
      { correct := newModeCorrect, total := newModeTotal,
        accuracy := some (calculateAccuracy newModeCorrect newModeTotal) },
    speciesStats := updateSpeciesStats progress.speciesStats a.speciesId a.correct a.timestamp,
    rollingStats :=
      { answers := newAnswers,
        currentStreak := newStreak,
        maxStreak := max newStreak progress.rollingStats.maxStreak,
        totalAnswers := progress.rollingStats.totalAnswers + 1 } }

/-! ## Reference semantics of RECORD_ANSWER (aliasing model)

The reducer executes `const newProgress = { ...state.progress }` — a
shallow copy — and then mutates `newProgress.overallStats`,
`newProgress.modeStats` and `newProgress.speciesStats` through the copied
references.  To reason about what the *previous* `Progress` value
observes, the nested objects live in an explicit heap and a `Progress`
value is a tuple of references into it. -/

structure ProgressHeap where
  overallCells : Nat → OverallStats
  modeCells : Nat → ModeStats
  speciesCells : Nat → List (String × SpeciesStat)
  rollingCells : Nat → RollingStats
  nextAddr : Nat

/-- A JavaScript `Progress` object: references to its nested objects. -/
structure ProgressRef where
  overallRef : Nat
  modeRef : Nat
  speciesRef : Nat
  rollingRef : Nat
  deriving Repr, DecidableEq

/-- The `RECORD_ANSWER` case with reference semantics: the shallow copy
shares all four references; the `+=` updates write through the shared
`overallStats` / `modeStats` / `speciesStats` references, while
`newProgress.rollingStats = {...}` installs a fresh object on the copy
only. -/
def recordAnswerHeap (h : ProgressHeap) (prev : ProgressRef) (a : AnswerRecord) :
    ProgressHeap × ProgressRef :=
  let overall := h.overallCells prev.overallRef
  let mode := h.modeCells prev.modeRef
  let species := h.speciesCells prev.speciesRef
  let rolling := h.rollingCells prev.rollingRef
  let newTotal := overall.totalQuestions + 1
  let newCorrect := overall.correct + (if a.correct then 1 else 0)
  let newModeTotal := mode.total + 1
  let newModeCorrect := mode.correct + (if a.correct then 1 else 0)
  let newAnswers :=
    (if rolling.answers.length ≥ ROLLING_BUFFER_SIZE
     then rolling.answers.tail else rolling.answers) ++ [a]
  let newStreak := if a.correct then rolling.currentStreak + 1 else 0
  let rollingAddr := h.nextAddr
  let h1 : ProgressHeap :=
    { overallCells := fun n => if n = prev.overallRef then
        { totalQuestions := newTotal, correct := newCorrect,
          accuracy := calculateAccuracy newCorrect newTotal,
          lastPlayed := a.timestamp } else h.overallCells n,
      modeCells := fun n => if n = prev.modeRef then
        { correct := newModeCorrect, total := newModeTotal,
          accuracy := some (calculateAccuracy newModeCorrect newModeTotal) }
        else h.modeCells n,
      speciesCells := fun n => if n = prev.speciesRef then
        updateSpeciesStats species a.speciesId a.correct a.timestamp
        else h.speciesCells n,
      rollingCells := fun n => if n = rollingAddr then
        { answers := newAnswers, currentStreak := newStreak,
          maxStreak := max newStreak rolling.maxStreak,
          totalAnswers := rolling.totalAnswers + 1 }
        else h.rollingCells n,
      nextAddr := h.nextAddr + 1 }
  (h1, { prev with rollingRef := rollingAddr })

/-! ## useQuiz.ts and QuizContext -/

/-- Embeds `QuizState` of useQuiz.ts. -/
structure UQState where
  currentQuestion : Option Question
  questionNumber : Nat
  totalQuestions : Nat
  score : Nat
  streak : Nat
  answered : Bool
  selectedAnswer : Option String
  isCorrect : Option Bool
  deriving Repr, DecidableEq

/-- Embeds `checkAnswer` (useQuiz.ts): no-op when no current question or already
answered; otherwise compares the answer id with the correct-answer key. -/
def checkAnswer (prev : UQState) (answerId : String) (isFirstTry : Bool) : UQState :=
  match prev.currentQuestion, prev.answered with
  | none, _ => prev
  | some _, true => prev
  | some q, false =>
    let correct := answerId == q.correctAnswer
    let newStreak := if correct then prev.streak + 1 else 0
    let earnedScore := calculateScore correct isFirstTry newStreak
    { prev with
      answered := true,
      selectedAnswer := some answerId,
      isCorrect := some correct,
      score := prev.score + earnedScore,
      streak := newStreak }

/-- The slice of the reducer quiz state touched by answering. -/
structure QuizStateR where
  currentQuestion : Option Question
  answered : Bool
  selectedAnswer : Option String
  isCorrect : Option Bool
  progress : Progress
  deriving Repr, DecidableEq

/-- The `ANSWER_QUESTION` case of `quizReducer`: applied unconditionally,
correctness arrives in the payload. -/
def answerQuestionReducer (state : QuizStateR) (answerId : String)
    (isCorrect : Bool) : QuizStateR :=
  { state with
    answered := true,
    selectedAnswer := some answerId,
    isCorrect := some isCorrect }

/-- Embeds `answerQuestion` of QuizContext: guards only on a missing current
question, computes correctness, then dispatches `ANSWER_QUESTION` followed
by `RECORD_ANSWER`. -/
def answerQuestionContext (state : QuizStateR) (answerId : String)
    (timestamp : String) : QuizStateR :=
  match state.currentQuestion with
  | none => state
  | some q =>
    let isCorrect := answerId == q.correctAnswer
    let s1 := answerQuestionReducer state answerId isCorrect
    { s1 with
      progress := recordAnswerPure s1.progress
        { timestamp := timestamp, speciesId := q.bird.id, correct := isCorrect,
          questionType := q.questionType, answerFormat := q.answerFormat } }

/-! ## Basic laws of the `Rand` embedding -/

theorem run_bind {α β : Type} (x : Rand α) (f : α → Rand β) (rs : RandState) :
    (x >>= f) rs = f (x rs).1 (x rs).2 := rfl

theorem run_pure {α : Type} (a : α) (rs : RandState) :
    (pure a : Rand α) rs = (a, rs) := rfl

theorem randBelow_lt (n : Nat) (hn : 0 < n) (rs : RandState) :
    ((randBelow n) rs).1 < n := Nat.mod_lt _ hn

/-! ## The Fisher–Yates shuffle produces a permutation -/

theorem cons_get_set_perm {α : Type} (l : List α) (k : Nat) (hk : k < l.length) (a : α) :
    (l.get ⟨k, hk⟩ :: l.set k a).Perm (a :: l) := by
  induction l generalizing k with
  | nil => simp at hk
  | cons x t ih =>
    cases k with
    | zero =>
      simpa [List.set] using List.Perm.swap a x t
    | succ k =>
      have hk2 : k < t.length := by simpa using hk
      have hset : (x :: t).set (k+1) a = x :: t.set k a := rfl
      have hget : (x :: t).get ⟨k+1, hk⟩ = t.get ⟨k, hk2⟩ := rfl
      rw [hset, hget]
      have p1 : (t.get ⟨k, hk2⟩ :: x :: t.set k a).Perm (x :: t.get ⟨k, hk2⟩ :: t.set k a) :=
        List.Perm.swap x (t.get ⟨k, hk2⟩) (t.set k a)
      have p2 : (x :: t.get ⟨k, hk2⟩ :: t.set k a).Perm (x :: a :: t) :=
        (ih k hk2).cons x
      have p3 : (x :: a :: t).Perm (a :: x :: t) := List.Perm.swap a x t
      exact p1.trans (p2.trans p3)

theorem listSwap_perm {α : Type} (l : List α) (i j : Nat) :
    (listSwap l i j).Perm l := by
  unfold listSwap
  cases hi : l.get? i with
  | none => exact List.Perm.refl l
  | some a =>
    cases hj : l.get? j with
    | none => exact List.Perm.refl l
    | some b =>
      simp only
      have hil : i < l.length := (List.get?_eq_some.mp hi).1
      have hjl : j < l.length := (List.get?_eq_some.mp hj).1
      have ha : l.get ⟨i, hil⟩ = a := (List.get?_eq_some.mp hi).2
      have hb : l.get ⟨j, hjl⟩ = b := (List.get?_eq_some.mp hj).2
      have hjl2 : j < (l.set i b).length := by simpa using hjl
      have hgb : (l.set i b).get ⟨j, hjl2⟩ = b := by
        by_cases hij : i = j
        · subst hij
          simp [List.getElem_set]
        · rw [List.get_eq_getElem, List.getElem_set_ne hij]
          exact hb
      have h1 : ((l.set i b).get ⟨j, hjl2⟩ :: (l.set i b).set j a).Perm (a :: l.set i b) :=
        cons_get_set_perm (l.set i b) j hjl2 a
      rw [hgb] at h1
      have h2 : (l.get ⟨i, hil⟩ :: l.set i b).Perm (b :: l) :=
        cons_get_set_perm l i hil b
      rw [ha] at h2
      exact (h1.trans h2).cons_inv

theorem fyLoop_perm {α : Type} (i : Nat) (l : List α) (rs : RandState) :
    ((fyLoop l i) rs).1.Perm l := by
  induction i generalizing l rs with
  | zero => exact List.Perm.refl l
  | succ i ih =>
    show ((randBelow (i + 2) >>= fun j => fyLoop (listSwap l (i + 1) j) i) rs).1.Perm l
    rw [run_bind]
    exact (ih _ _).trans (listSwap_perm _ _ _)

theorem shuffleArray_perm {α : Type} (l : List α) (rs : RandState) :
    ((shuffleArray l) rs).1.Perm l :=
  fyLoop_perm _ l rs

theorem shuffleArray_length {α : Type} (l : List α) (rs : RandState) :
    ((shuffleArray l) rs).1.length = l.length :=
  (shuffleArray_perm l rs).length_eq

/-! ## Media picker lemmas -/

theorem getD_mem {α : Type} [Inhabited α] (l : List α) (i : Nat) (hi : i < l.length) :
    l.getD i default ∈ l := by
  rw [List.getD_eq_getElem l default hi]
  exact List.getElem_mem hi

/-- A picked alternative photo never equals the excluded URL. -/
theorem getRandomPhotoDifferentFrom_ne (bird : Bird) (excludeUrl : String)
    (rs : RandState) (u : String)
    (h : ((getRandomPhotoDifferentFrom bird excludeUrl) rs).1 = some u) :
    u ≠ excludeUrl := by
  unfold getRandomPhotoDifferentFrom at h
  split at h
  · simp [run_pure] at h
  · dsimp only at h
    split at h
    · simp [run_pure] at h
    · rw [run_bind, run_pure] at h
      rename_i hne hlen
      set available := bird.photos.filter
        (fun photo => decide (mediaUrl photo.cached ≠ excludeUrl)) with havail
      have hlt : ((randBelow available.length) rs).1 < available.length :=
        randBelow_lt _ (Nat.pos_of_ne_zero (by simpa using hlen)) rs
      have hmem : available.getD ((randBelow available.length) rs).1 default ∈ available :=
        getD_mem _ _ hlt
      have hp := List.of_mem_filter hmem
      simp only at h
      cases h
      simpa using hp

/-- A picked alternative recording never has the excluded audio URL. -/
theorem getRandomRecordingDifferentFrom_ne (bird : Bird) (excludeUrl : String)
    (rs : RandState) (r : BirdRecording)
    (h : ((getRandomRecordingDifferentFrom bird excludeUrl) rs).1 = some r) :
    getRecordingAudioUrl r ≠ excludeUrl := by
  unfold getRandomRecordingDifferentFrom at h
  split at h
  · simp [run_pure] at h
  · dsimp only at h
    split at h
    · simp [run_pure] at h
    · rw [run_bind, run_pure] at h
      rename_i hne hlen
      set available := bird.recordings.filter
        (fun recording => decide (getRecordingAudioUrl recording ≠ excludeUrl)) with havail
      have hlt : ((randBelow available.length) rs).1 < available.length :=
        randBelow_lt _ (Nat.pos_of_ne_zero (by simpa using hlen)) rs
      have hmem : available.getD ((randBelow available.length) rs).1 default ∈ available :=
        getD_mem _ _ hlt
      have hp := List.of_mem_filter hmem
      simp only at h
      cases h
      simpa using hp

/-- When every photo of the bird carries the excluded URL, the picker
reports `null`. -/
theorem getRandomPhotoDifferentFrom_all_excluded (bird : Bird) (excludeUrl : String)
    (rs : RandState)
    (h : ∀ p ∈ bird.photos, mediaUrl p.cached = excludeUrl) :
    ((getRandomPhotoDifferentFrom bird excludeUrl) rs).1 = none := by
  unfold getRandomPhotoDifferentFrom
  split
  · rfl
  · dsimp only
    have hav : bird.photos.filter (fun photo => decide (mediaUrl photo.cached ≠ excludeUrl)) = [] := by
      rw [List.filter_eq_nil_iff]
      intro p hp
      simpa using h p hp
    rw [hav]
    rfl

/-- When every recording of the bird carries the excluded audio URL, the
picker reports `null`. -/
theorem getRandomRecordingDifferentFrom_all_excluded (bird : Bird) (excludeUrl : String)
    (rs : RandState)
    (h : ∀ r ∈ bird.recordings, getRecordingAudioUrl r = excludeUrl) :
    ((getRandomRecordingDifferentFrom bird excludeUrl) rs).1 = none := by
  unfold getRandomRecordingDifferentFrom
  split
  · rfl
  · dsimp only
    have hav : bird.recordings.filter
        (fun recording => decide (getRecordingAudioUrl recording ≠ excludeUrl)) = [] := by
      rw [List.filter_eq_nil_iff]
      intro r hr
      simpa using h r hr
    rw [hav]
    rfl

/-- A constructed media URL is never the empty string. -/
theorem mediaUrl_ne_empty (c : String) : mediaUrl c ≠ "" := by
  unfold mediaUrl
  intro h
  have hlen := congrArg String.length h
  rw [String.length_append] at hlen
  rw [show ("/" : String).length = 1 from rfl, show ("" : String).length = 0 from rfl] at hlen
  omega

/-- Embeds `getRandomPhoto` always returns a non-empty (truthy) URL. -/
theorem getRandomPhoto_ne_empty (bird : Bird) (rs : RandState) :
    ((getRandomPhoto bird) rs).1 ≠ "" := by
  unfold getRandomPhoto
  split
  · intro h
    simp [run_pure] at h
  · rw [run_bind, run_pure]
    exact mediaUrl_ne_empty _

/-! ## Distractor selection lemmas -/

/-- Every surviving distractor comes from the pool and has an identifier
different from the correct bird. -/
theorem getWrongAnswers_mem (allBirds : List Bird) (correctBird : Bird) (count : Nat)
    (rs : RandState) (b : Bird)
    (hb : b ∈ ((getWrongAnswers allBirds correctBird count) rs).1) :
    b ∈ allBirds ∧ b.id ≠ correctBird.id := by
  unfold getWrongAnswers at hb
  rw [run_bind, run_pure] at hb
  have hb2 := List.mem_of_mem_take hb
  have hb3 := (shuffleArray_perm _ _).mem_iff.mp hb2
  have hb4 := List.mem_filter.mp hb3
  exact ⟨hb4.1, by simpa using hb4.2⟩

/-- Under pairwise-distinct identifiers, removing the correct bird leaves
exactly `length - 1` birds. -/
theorem filter_ne_id_length (birds : List Bird) (c : Bird)
    (hnd : (birds.map Bird.id).Nodup) (hc : c ∈ birds) :
    (birds.filter (fun b => b.id ≠ c.id)).length + 1 = birds.length := by
  induction birds with
  | nil => cases hc
  | cons x t ih =>
    rw [List.map_cons, List.nodup_cons] at hnd
    rcases List.mem_cons.mp hc with hcx | hct
    · subst hcx
      have hnotin : ∀ b ∈ t, b.id ≠ c.id :=
        fun b hb he => hnd.1 (he ▸ List.mem_map_of_mem Bird.id hb)
      have hall : t.filter (fun b => decide (b.id ≠ c.id)) = t :=
        List.filter_eq_self.mpr (fun b hb => by simpa using hnotin b hb)
      have hcc : (decide (c.id ≠ c.id)) = false := by simp
      rw [List.filter_cons, hcc]
      simp [hall]
      exact fun a ha => hnotin a ha
    · have hxc : x.id ≠ c.id := by
        intro he
        exact hnd.1 (he ▸ List.mem_map_of_mem Bird.id hct)
      have hrec := ih hnd.2 hct
      have hxcd : (decide (x.id ≠ c.id)) = true := by simpa using hxc
      rw [List.filter_cons, hxcd]
      simp only [if_true, List.length_cons]
      omega

/-- With a pool of pairwise-distinct identifiers of size at least four
containing the correct bird, exactly three distractors are produced. -/
theorem getWrongAnswers_length (allBirds : List Bird) (correctBird : Bird)
    (rs : RandState) (hnd : (allBirds.map Bird.id).Nodup)
    (hc : correctBird ∈ allBirds) (hlen : 4 ≤ allBirds.length) :
    ((getWrongAnswers allBirds correctBird 3) rs).1.length = 3 := by
  unfold getWrongAnswers
  rw [run_bind, run_pure]
  simp only [List.length_take]
  have h1 := filter_ne_id_length allBirds correctBird hnd hc
  have h2 := shuffleArray_length
    (allBirds.filter (fun b => b.id ≠ correctBird.id)) rs
  omega

/-! ## Mixed option invariants -/

theorem createTextImageOption_id (b : Bird) (e1 : Option String) (hl : Bool)
    (rs : RandState) : ((createTextImageOption b e1 hl) rs).1.id = b.id := by
  unfold createTextImageOption
  split
  · rw [run_bind]
    cases hv : ((getRandomPhotoDifferentFrom b (e1.getD "")) rs).1 <;>
      simp [hv, run_pure, createTextOption]
  · rw [run_bind]
    simp [run_pure]

theorem createImageOnlyOption_id (b : Bird) (e1 : Option String) (hl : Bool)
    (rs : RandState) : ((createImageOnlyOption b e1 hl) rs).1.id = b.id := by
  unfold createImageOnlyOption
  split
  · rw [run_bind]
    cases hv : ((getRandomPhotoDifferentFrom b (e1.getD "")) rs).1 <;>
      simp [hv, run_pure, createTextOption]
  · rw [run_bind]
    simp [run_pure]

theorem createAudioOnlyOption_id (b : Bird) (r : Option BirdRecording)
    (e2 : Option String) (hl : Bool) (rs : RandState) :
    ((createAudioOnlyOption b r e2 hl) rs).1.id = b.id := by
  unfold createAudioOnlyOption
  split
  · cases r with
    | none => simp [run_pure, createTextOption]
    | some r0 =>
      dsimp only
      rw [run_bind]
      cases hv : ((getRandomRecordingDifferentFrom b (e2.getD "")) rs).1 <;>
        simp [hv, run_pure, createTextOption]
  · simp [run_pure]

theorem createMixedOption_id (b : Bird) (t : OptionType) (r : Option BirdRecording)
    (e1 e2 : Option String) (hl : Bool) (rs : RandState) :
    ((createMixedOption b t r e1 e2 hl) rs).1.id = b.id := by
  cases t with
  | text => rfl
  | textImage => exact createTextImageOption_id b e1 hl rs
  | imageOnly => exact createImageOnlyOption_id b e1 hl rs
  | audioOnly => exact createAudioOnlyOption_id b r e2 hl rs

/-- Text+image options never carry audio. -/
theorem createTextImageOption_audioUrl (b : Bird) (e1 : Option String) (hl : Bool)
    (rs : RandState) : ((createTextImageOption b e1 hl) rs).1.audioUrl = none := by
  unfold createTextImageOption
  split
  · rw [run_bind]
    cases hv : ((getRandomPhotoDifferentFrom b (e1.getD "")) rs).1 <;>
      simp [hv, run_pure, createTextOption]
  · rw [run_bind]
    simp [run_pure]

/-- Image-only options never carry audio. -/
theorem createImageOnlyOption_audioUrl (b : Bird) (e1 : Option String) (hl : Bool)
    (rs : RandState) : ((createImageOnlyOption b e1 hl) rs).1.audioUrl = none := by
  unfold createImageOnlyOption
  split
  · rw [run_bind]
    cases hv : ((getRandomPhotoDifferentFrom b (e1.getD "")) rs).1 <;>
      simp [hv, run_pure, createTextOption]
  · rw [run_bind]
    simp [run_pure]

/-- Audio-only options never carry an image. -/
theorem createAudioOnlyOption_imageUrl (b : Bird) (r : Option BirdRecording)
    (e2 : Option String) (hl : Bool) (rs : RandState) :
    ((createAudioOnlyOption b r e2 hl) rs).1.imageUrl = none := by
  unfold createAudioOnlyOption
  split
  · cases r with
    | none => simp [run_pure, createTextOption]
    | some r0 =>
      dsimp only
      rw [run_bind]
      cases hv : ((getRandomRecordingDifferentFrom b (e2.getD "")) rs).1 <;>
        simp [hv, run_pure, createTextOption]
  · simp [run_pure]

/-- A mixed option built with a truthy photo exclusion never carries the
excluded image URL. -/
theorem createMixedOption_photo_excl (b : Bird) (t : OptionType)
    (r : Option BirdRecording) (e : String) (e2 : Option String) (hl : Bool)
    (rs : RandState) (he : e ≠ "") (u : String)
    (h : ((createMixedOption b t r (some e) e2 hl) rs).1.imageUrl = some u) :
    u ≠ e := by
  have htruthy : optStrTruthy (some e) = true := by simpa [optStrTruthy] using he
  cases t with
  | text =>
    simp [createMixedOption, createTextOption, run_pure] at h
  | textImage =>
    unfold createMixedOption createTextImageOption at h
    rw [htruthy] at h
    simp only [if_true] at h
    rw [run_bind] at h
    cases hv : ((getRandomPhotoDifferentFrom b ((some e).getD "")) rs).1 with
    | none => rw [hv] at h; simp [run_pure, createTextOption] at h
    | some v =>
      rw [hv] at h
      simp only [run_pure] at h
      have hvu := Option.some.inj h
      subst hvu
      exact getRandomPhotoDifferentFrom_ne b _ rs _ hv
  | imageOnly =>
    unfold createMixedOption createImageOnlyOption at h
    rw [htruthy] at h
    simp only [if_true] at h
    rw [run_bind] at h
    cases hv : ((getRandomPhotoDifferentFrom b ((some e).getD "")) rs).1 with
    | none => rw [hv] at h; simp [run_pure, createTextOption] at h
    | some v =>
      rw [hv] at h
      simp only [run_pure] at h
      have hvu := Option.some.inj h
      subst hvu
      exact getRandomPhotoDifferentFrom_ne b _ rs _ hv
  | audioOnly =>
    have hx : createMixedOption b .audioOnly r (some e) e2 hl
        = createAudioOnlyOption b r e2 hl := rfl
    rw [hx, createAudioOnlyOption_imageUrl] at h
    cases h

/-- A mixed option built with a truthy audio exclusion never carries the
excluded audio URL. -/
theorem createMixedOption_audio_excl (b : Bird) (t : OptionType)
    (r : Option BirdRecording) (e1 : Option String) (e : String) (hl : Bool)
    (rs : RandState) (he : e ≠ "") (u : String)
    (h : ((createMixedOption b t r e1 (some e) hl) rs).1.audioUrl = some u) :
    u ≠ e := by
  have htruthy : optStrTruthy (some e) = true := by simpa [optStrTruthy] using he
  cases t with
  | text =>
    simp [createMixedOption, createTextOption, run_pure] at h
  | textImage =>
    have hx : createMixedOption b .textImage r e1 (some e) hl
        = createTextImageOption b e1 hl := rfl
    rw [hx, createTextImageOption_audioUrl] at h
    cases h
  | imageOnly =>
    have hx : createMixedOption b .imageOnly r e1 (some e) hl
        = createImageOnlyOption b e1 hl := rfl
    rw [hx, createImageOnlyOption_audioUrl] at h
    cases h
  | audioOnly =>
    unfold createMixedOption createAudioOnlyOption at h
    rw [htruthy] at h
    simp only [if_true] at h
    cases r with
    | none => simp [run_pure, createTextOption] at h
    | some r0 =>
      dsimp only at h
      rw [run_bind] at h
      cases hv : ((getRandomRecordingDifferentFrom b ((some e).getD "")) rs).1 with
      | none => rw [hv] at h; simp [run_pure, createTextOption] at h
      | some v =>
        rw [hv] at h
        simp only [run_pure] at h
        have hvu := Option.some.inj h
        subst hvu
        exact getRandomRecordingDifferentFrom_ne b _ rs _ hv

/-! ## Answer-set builder invariants -/

theorem createPhotoOptionsLoop_cons (c : Bird) (ex : Option String) (b : Bird)
    (rest : List Bird) (rs : RandState) :
    (createPhotoOptionsLoop c ex (b :: rest)) rs =
      (let pi := (photoOptionItem c ex b) rs
       match pi.1 with
       | none => (none, pi.2)
       | some imageUrl =>
         let pt := (createPhotoOptionsLoop c ex rest) pi.2
         match pt.1 with
         | none => (none, pt.2)
         | some opts =>
           (some ({ id := b.id, imageUrl := some imageUrl, label := b.commonName,
                    type := OptionType.imageOnly, hideLabel := true } :: opts), pt.2)) := by
  conv_lhs => rw [createPhotoOptionsLoop]
  rw [run_bind]
  dsimp only
  cases hpi : ((photoOptionItem c ex b) rs).1 with
  | none => simp only [hpi, run_pure]
  | some imageUrl =>
    simp only [hpi]
    rw [run_bind]
    cases hpt : ((createPhotoOptionsLoop c ex rest) _).1 with
    | none => simp only [hpt, run_pure]
    | some opts => simp only [hpt, run_pure]

/-- An `imageUrl` produced for a correct-identifier bird under a truthy
exclusion differs from the excluded URL. -/
theorem photoOptionItem_ne (c : Bird) (e : String) (b : Bird) (rs : RandState)
    (hid : b.id = c.id) (hene : e ≠ "") (u : String)
    (h : ((photoOptionItem c (some e) b) rs).1 = some u) : u ≠ e := by
  unfold photoOptionItem at h
  have htruthy : optStrTruthy (some e) = true := by simpa [optStrTruthy] using hene
  rw [if_pos ⟨hid, htruthy⟩] at h
  exact getRandomPhotoDifferentFrom_ne b _ rs u h

theorem createPhotoOptionsLoop_sound (c : Bird) (ex : Option String) :
    ∀ (birds : List Bird) (rs : RandState) (opts : List QuestionOption),
    ((createPhotoOptionsLoop c ex birds) rs).1 = some opts →
    opts.map QuestionOption.id = birds.map Bird.id ∧
    ∀ opt ∈ opts,
      (opt.id = c.id → ∀ e, ex = some e → e ≠ "" → ∀ u, opt.imageUrl = some u → u ≠ e)
      ∧ opt.audioUrl = none := by
  intro birds
  induction birds with
  | nil =>
    intro rs opts h
    have : opts = [] := by
      simpa [createPhotoOptionsLoop, run_pure] using h.symm
    subst this
    exact ⟨rfl, by intro opt hopt; cases hopt⟩
  | cons b rest ih =>
    intro rs opts h
    rw [createPhotoOptionsLoop_cons] at h
    dsimp only at h
    cases hpi : ((photoOptionItem c ex b) rs).1 with
    | none => rw [hpi] at h; cases h
    | some imageUrl =>
      rw [hpi] at h
      dsimp only at h
      cases hpt : ((createPhotoOptionsLoop c ex rest) _).1 with
      | none => rw [hpt] at h; cases h
      | some opts0 =>
        rw [hpt] at h
        injection h with h
        subst h
        obtain ⟨ihmap, ihmem⟩ := ih _ _ hpt
        refine ⟨by simpa using ihmap, ?_⟩
        intro opt hopt
        rcases List.mem_cons.mp hopt with hco | hor
        · subst hco
          refine ⟨?_, rfl⟩
          intro hid e hexe hene u himg
          subst hexe
          have hid2 : b.id = c.id := by simpa using hid
          have hu : imageUrl = u := by simpa using himg
          subst hu
          exact photoOptionItem_ne c e b rs hid2 hene imageUrl hpi
        · exact ihmem opt hor

theorem createAudioOptionsLoop_cons (c : Bird) (ex : Option String) (b : Bird)
    (rest : List Bird) (rs : RandState) :
    (createAudioOptionsLoop c ex (b :: rest)) rs =
      (let pr := (getRandomRecording b) rs
       match pr.1 with
       | none => (none, pr.2)
       | some recording =>
         let pi := (audioOptionItem c ex b recording) pr.2
         match pi.1 with
         | none => (none, pi.2)
         | some audioUrl =>
           let pt := (createAudioOptionsLoop c ex rest) pi.2
           match pt.1 with
           | none => (none, pt.2)
           | some opts =>
             (some ({ id := b.id, audioUrl := some audioUrl, label := b.commonName,
                      type := OptionType.audioOnly, hideLabel := true } :: opts), pt.2)) := by
  conv_lhs => rw [createAudioOptionsLoop]
  rw [run_bind]
  dsimp only
  cases hpr : ((getRandomRecording b) rs).1 with
  | none => simp only [hpr, run_pure]
  | some recording =>
    simp only [hpr]
    rw [run_bind]
    cases hpi : ((audioOptionItem c ex b recording) _).1 with
    | none => simp only [hpi, run_pure]
    | some audioUrl =>
      simp only [hpi]
      rw [run_bind]
      cases hpt : ((createAudioOptionsLoop c ex rest) _).1 with
      | none => simp only [hpt, run_pure]
      | some opts => simp only [hpt, run_pure]

/-- An `audioUrl` produced for a correct-identifier bird under a truthy
exclusion differs from the excluded URL. -/
theorem audioOptionItem_ne (c : Bird) (e : String) (b : Bird) (r : BirdRecording)
    (rs : RandState) (hid : b.id = c.id) (hene : e ≠ "") (u : String)
    (h : ((audioOptionItem c (some e) b r) rs).1 = some u) : u ≠ e := by
  unfold audioOptionItem at h
  have htruthy : optStrTruthy (some e) = true := by simpa [optStrTruthy] using hene
  rw [if_pos ⟨hid, htruthy⟩] at h
  rw [run_bind] at h
  cases hv : ((getRandomRecordingDifferentFrom b ((some e).getD "")) rs).1 with
  | none => rw [hv] at h; simp [run_pure] at h
  | some alt =>
    rw [hv] at h
    simp only [run_pure] at h
    have hu := Option.some.inj h
    subst hu
    exact getRandomRecordingDifferentFrom_ne b _ rs alt hv

theorem createAudioOptionsLoop_sound (c : Bird) (ex : Option String) :
    ∀ (birds : List Bird) (rs : RandState) (opts : List QuestionOption),
    ((createAudioOptionsLoop c ex birds) rs).1 = some opts →
    opts.map QuestionOption.id = birds.map Bird.id ∧
    ∀ opt ∈ opts,
      (opt.id = c.id → ∀ e, ex = some e → e ≠ "" → ∀ u, opt.audioUrl = some u → u ≠ e)
      ∧ opt.imageUrl = none := by
  intro birds
  induction birds with
  | nil =>
    intro rs opts h
    have : opts = [] := by
      simpa [createAudioOptionsLoop, run_pure] using h.symm
    subst this
    exact ⟨rfl, by intro opt hopt; cases hopt⟩
  | cons b rest ih =>
    intro rs opts h
    rw [createAudioOptionsLoop_cons] at h
    dsimp only at h
    cases hpr : ((getRandomRecording b) rs).1 with
    | none => rw [hpr] at h; cases h
    | some recording =>
      rw [hpr] at h
      dsimp only at h
      cases hpi : ((audioOptionItem c ex b recording) _).1 with
      | none => rw [hpi] at h; cases h
      | some audioUrl =>
        rw [hpi] at h
        dsimp only at h
        cases hpt : ((createAudioOptionsLoop c ex rest) _).1 with
        | none => rw [hpt] at h; cases h
        | some opts0 =>
          rw [hpt] at h
          injection h with h
          subst h
          obtain ⟨ihmap, ihmem⟩ := ih _ _ hpt
          refine ⟨by simpa using ihmap, ?_⟩
          intro opt hopt
          rcases List.mem_cons.mp hopt with hco | hor
          · subst hco
            refine ⟨?_, rfl⟩
            intro hid e hexe hene u haud
            subst hexe
            have hid2 : b.id = c.id := by simpa using hid
            have hu : audioUrl = u := by simpa using haud
            subst hu
            exact audioOptionItem_ne c e b recording _ hid2 hene audioUrl hpi
          · exact ihmem opt hor

theorem createMixedOptionsLoop_cons (c : Bird) (e1 e2 : Option String)
    (ats : List OptionType) (b : Bird) (rest : List Bird) (rs : RandState) :
    (createMixedOptionsLoop c e1 e2 ats (b :: rest)) rs =
      (let p1 := (randBelow ats.length) rs
       let p2 := (getRandomRecording b) p1.2
       let p3 := (createMixedOption b (ats.getD p1.1 OptionType.text) p2.1
                   (if b.id = c.id then e1 else none)
                   (if b.id = c.id then e2 else none) false) p2.2
       let p4 := (createMixedOptionsLoop c e1 e2 ats rest) p3.2
       (p3.1 :: p4.1, p4.2)) := rfl

theorem createMixedOptionsLoop_sound (c : Bird) (e1 e2 : Option String)
    (ats : List OptionType) :
    ∀ (birds : List Bird) (rs : RandState),
    (((createMixedOptionsLoop c e1 e2 ats birds) rs).1.map QuestionOption.id
      = birds.map Bird.id) ∧
    ∀ opt ∈ ((createMixedOptionsLoop c e1 e2 ats birds) rs).1, opt.id = c.id →
      (∀ e, e1 = some e → e ≠ "" → ∀ u, opt.imageUrl = some u → u ≠ e)
      ∧ (∀ e, e2 = some e → e ≠ "" → ∀ u, opt.audioUrl = some u → u ≠ e) := by
  intro birds
  induction birds with
  | nil =>
    intro rs
    exact ⟨rfl, by intro opt hopt; cases hopt⟩
  | cons b rest ih =>
    intro rs
    rw [createMixedOptionsLoop_cons]
    dsimp only
    obtain ⟨ihmap, ihmem⟩ := ih (((createMixedOption b
      ((ats.getD ((randBelow ats.length) rs).1 OptionType.text))
      (((getRandomRecording b) ((randBelow ats.length) rs).2).1)
      (if b.id = c.id then e1 else none)
      (if b.id = c.id then e2 else none) false)
      (((getRandomRecording b) ((randBelow ats.length) rs).2).2)).2)
    constructor
    · rw [List.map_cons, ihmap, createMixedOption_id, List.map_cons]
    · intro opt hopt hoptid
      rcases List.mem_cons.mp hopt with hco | hor
      · subst hco
        have hbid : b.id = c.id := by
          rw [createMixedOption_id] at hoptid
          exact hoptid
        rw [if_pos hbid, if_pos hbid] at hoptid ⊢
        constructor
        · intro e hexe hene u himg
          subst hexe
          exact createMixedOption_photo_excl b _ _ e _ false _ hene u himg
        · intro e hexe hene u haud
          subst hexe
          exact createMixedOption_audio_excl b _ _ _ e false _ hene u haud
      · exact ihmem opt hor hoptid

/-- Soundness of `createAnswerOptions`: a produced option set is a
permutation (by identifier) of correct-then-wrong birds, and any option
bearing the correct identifier respects both truthy media exclusions. -/
theorem createAnswerOptions_sound (answerFormat : AnswerFormat)
    (params : CreateAnswerOptionsParams) (rs : RandState)
    (opts : List QuestionOption)
    (h : ((createAnswerOptions answerFormat params) rs).1 = some opts) :
    ((opts.map QuestionOption.id).Perm
      ((params.correctBird :: params.wrongBirds).map Bird.id)) ∧
    ∀ opt ∈ opts, opt.id = params.correctBird.id →
      (∀ e, params.excludePhotoUrl = some e → e ≠ "" →
        ∀ u, opt.imageUrl = some u → u ≠ e)
      ∧ (∀ e, params.excludeAudioUrl = some e → e ≠ "" →
        ∀ u, opt.audioUrl = some u → u ≠ e) := by
  cases answerFormat with
  | text =>
    unfold createAnswerOptions createTextOptions at h
    dsimp only at h
    rw [run_bind, run_pure] at h
    simp only at h
    injection h with h
    subst h
    constructor
    · refine ((shuffleArray_perm _ rs).map QuestionOption.id).trans ?_
      rw [List.map_map]
      exact List.Perm.refl _
    · intro opt hopt hoptid
      have hmem := (shuffleArray_perm _ rs).mem_iff.mp hopt
      obtain ⟨b, hb, hopteq⟩ := List.mem_map.mp hmem
      constructor
      · intro e hexe hene u himg
        rw [← hopteq] at himg
        simp at himg
      · intro e hexe hene u haud
        rw [← hopteq] at haud
        simp at haud
  | photo =>
    unfold createAnswerOptions createPhotoOptions at h
    dsimp only at h
    rw [run_bind] at h
    cases hb : ((createPhotoOptionsLoop params.correctBird params.excludePhotoUrl
        (params.correctBird :: params.wrongBirds)) rs).1 with
    | none => rw [hb] at h; simp [run_pure] at h
    | some built =>
      rw [hb] at h
      simp only [run_bind, run_pure] at h
      injection h with h
      subst h
      obtain ⟨hmap, hmem⟩ := createPhotoOptionsLoop_sound _ _ _ _ _ hb
      constructor
      · refine ((shuffleArray_perm built _).map QuestionOption.id).trans ?_
        rw [hmap]
      · intro opt hopt hoptid
        have hopt2 := (shuffleArray_perm built _).mem_iff.mp hopt
        obtain ⟨hexcl, haudnone⟩ := hmem opt hopt2
        constructor
        · exact hexcl hoptid
        · intro e hexe hene u haud
          rw [haudnone] at haud
          cases haud
  | audio =>
    unfold createAnswerOptions createAudioOptions at h
    dsimp only at h
    rw [run_bind] at h
    cases hb : ((createAudioOptionsLoop params.correctBird params.excludeAudioUrl
        (params.correctBird :: params.wrongBirds)) rs).1 with
    | none => rw [hb] at h; simp [run_pure] at h
    | some built =>
      rw [hb] at h
      simp only [run_bind, run_pure] at h
      injection h with h
      subst h
      obtain ⟨hmap, hmem⟩ := createAudioOptionsLoop_sound _ _ _ _ _ hb
      constructor
      · refine ((shuffleArray_perm built _).map QuestionOption.id).trans ?_
        rw [hmap]
      · intro opt hopt hoptid
        have hopt2 := (shuffleArray_perm built _).mem_iff.mp hopt
        obtain ⟨hexcl, himgnone⟩ := hmem opt hopt2
        constructor
        · intro e hexe hene u himg
          rw [himgnone] at himg
          cases himg
        · exact hexcl hoptid
  | mixed =>
    unfold createAnswerOptions createMixedOptions at h
    dsimp only at h
    simp only [run_bind, run_pure] at h
    injection h with h
    subst h
    obtain ⟨hmap, hmem⟩ := createMixedOptionsLoop_sound params.correctBird
      params.excludePhotoUrl params.excludeAudioUrl
      (if params.isNameToMediaQuestion then NAME_TO_MEDIA_ANSWER_TYPES
       else MIXED_ANSWER_TYPES)
      (params.correctBird :: params.wrongBirds) rs
    constructor
    · refine ((shuffleArray_perm _ _).map QuestionOption.id).trans ?_
      rw [hmap]
    · intro opt hopt hoptid
      have hopt2 := (shuffleArray_perm _ _).mem_iff.mp hopt
      exact hmem opt hopt2 hoptid

/-! ## Generator characterizations -/

theorem generatePhotoToNameQuestion_inv (now : String) (birds : List Bird)
    (fmt : AnswerFormat) (rs : RandState) (q : Question)
    (h : ((generatePhotoToNameQuestion now birds fmt) rs).1 = some q) :
    4 ≤ birds.length ∧
    ∃ (correctBird : Bird) (photoUrl : String) (rsW rsO : RandState)
      (opts : List QuestionOption),
      correctBird ∈ birds ∧
      photoUrl ≠ "" ∧
      ((createAnswerOptions fmt
        { correctBird := correctBird,
          wrongBirds := ((getWrongAnswers birds correctBird 3) rsW).1,
          excludePhotoUrl := some photoUrl }) rsO).1 = some opts ∧
      q.correctAnswer = correctBird.id ∧
      q.options = opts ∧
      q.mediaUrl = some photoUrl := by
  unfold generatePhotoToNameQuestion at h
  split at h
  · rw [run_pure] at h; cases h
  · rename_i hmin
    rw [show (let birdsWithPhotos := filterBirdsWithPhotos birds;
        if birdsWithPhotos.length < 1 then (pure none : Rand (Option Question))
        else do
          let ci ← randBelow birdsWithPhotos.length
          let correctBird : Bird := birdsWithPhotos.getD ci default
          let photoUrl ← getRandomPhoto correctBird
          let wrongBirds ← getWrongAnswers birds correctBird 3
          let options ← createAnswerOptions fmt
            { correctBird := correctBird, wrongBirds := wrongBirds,
              excludePhotoUrl := some photoUrl }
          match options with
          | none => pure none
          | some options =>
            pure (some
              { id := "photo-" ++ now, questionType := .photoToName,
                answerFormat := fmt, bird := correctBird,
                questionText := "What bird is this?",
                correctAnswer := correctBird.id, options := options,
                mediaUrl := some photoUrl, mediaType := some "photo" })) =
      (if (filterBirdsWithPhotos birds).length < 1 then (pure none : Rand (Option Question))
        else do
          let ci ← randBelow (filterBirdsWithPhotos birds).length
          let correctBird : Bird := (filterBirdsWithPhotos birds).getD ci default
          let photoUrl ← getRandomPhoto correctBird
          let wrongBirds ← getWrongAnswers birds correctBird 3
          let options ← createAnswerOptions fmt
            { correctBird := correctBird, wrongBirds := wrongBirds,
              excludePhotoUrl := some photoUrl }
          match options with
          | none => pure none
          | some options =>
            pure (some
              { id := "photo-" ++ now, questionType := .photoToName,
                answerFormat := fmt, bird := correctBird,
                questionText := "What bird is this?",
                correctAnswer := correctBird.id, options := options,
                mediaUrl := some photoUrl, mediaType := some "photo" })) from rfl] at h
    split at h
    · rw [run_pure] at h; cases h
    · rename_i hsub
      simp only [run_bind] at h
      set bwp := filterBirdsWithPhotos birds with hbwp
      set ci := ((randBelow bwp.length) rs).1 with hci
      set rs1 := ((randBelow bwp.length) rs).2 with hrs1
      set correctBird := bwp.getD ci default with hcb
      set photoUrl := ((getRandomPhoto correctBird) rs1).1 with hpu
      set rs2 := ((getRandomPhoto correctBird) rs1).2 with hrs2
      set rs3 := ((getWrongAnswers birds correctBird 3) rs2).2 with hrs3
      cases ho : ((createAnswerOptions fmt
          { correctBird := correctBird,
            wrongBirds := ((getWrongAnswers birds correctBird 3) rs2).1,
            excludePhotoUrl := some photoUrl }) rs3).1 with
      | none => rw [ho] at h; simp [run_pure] at h
      | some opts =>
        rw [ho] at h
        simp only [run_pure] at h
        injection h with h
        subst h
        have hlen4 : 4 ≤ birds.length := by
          unfold MIN_BIRDS_FOR_QUESTION at hmin
          omega
        have hcil : ci < bwp.length := by
          apply randBelow_lt
          omega
        have hmem : correctBird ∈ birds :=
          List.mem_of_mem_filter (getD_mem bwp ci hcil)
        exact ⟨hlen4, correctBird, photoUrl, rs2, rs3, opts, hmem,
          getRandomPhoto_ne_empty correctBird rs1, ho, rfl, rfl, rfl⟩

theorem generateAudioToNameQuestion_inv (now : String) (birds : List Bird)
    (fmt : AnswerFormat) (rs : RandState) (q : Question)
    (h : ((generateAudioToNameQuestion now birds fmt) rs).1 = some q) :
    4 ≤ birds.length ∧
    ∃ (correctBird : Bird) (audioUrl : String) (rsW rsO : RandState)
      (opts : List QuestionOption),
      correctBird ∈ birds ∧
      audioUrl ≠ "" ∧
      ((createAnswerOptions fmt
        { correctBird := correctBird,
          wrongBirds := ((getWrongAnswers birds correctBird 3) rsW).1,
          excludeAudioUrl := some audioUrl }) rsO).1 = some opts ∧
      q.correctAnswer = correctBird.id ∧
      q.options = opts ∧
      q.mediaUrl = some audioUrl := by
  unfold generateAudioToNameQuestion at h
  split at h
  · rw [run_pure] at h; cases h
  · rename_i hmin
    simp only [run_bind] at h
    split at h
    · rw [run_pure] at h; cases h
    · rename_i hsub
      rw [run_bind] at h
      rw [run_bind] at h
      set bwa := filterBirdsWithRecordings birds with hbwa
      set ci := ((randBelow bwa.length) rs).1 with hci
      set rs1 := ((randBelow bwa.length) rs).2 with hrs1
      set correctBird := bwa.getD ci default with hcb
      cases hrec : ((getRandomRecording correctBird) rs1).1 with
      | none => rw [hrec] at h; simp [run_pure] at h
      | some recording =>
        rw [hrec] at h
        simp only [run_bind, run_pure] at h
        set audioUrl := getRecordingAudioUrl recording with hau
        set rs2 := ((getRandomRecording correctBird) rs1).2 with hrs2
        set rs3 := ((getWrongAnswers birds correctBird 3) rs2).2 with hrs3
        cases ho : ((createAnswerOptions fmt
            { correctBird := correctBird,
              wrongBirds := ((getWrongAnswers birds correctBird 3) rs2).1,
              excludeAudioUrl := some audioUrl }) rs3).1 with
        | none => rw [ho] at h; simp [run_pure] at h
        | some opts =>
          rw [ho] at h
          simp only [run_pure] at h
          injection h with h
          subst h
          have hlen4 : 4 ≤ birds.length := by
            unfold MIN_BIRDS_FOR_QUESTION at hmin
            omega
          have hcil : ci < bwa.length := by
            apply randBelow_lt
            omega
          have hmem : correctBird ∈ birds :=
            List.mem_of_mem_filter (getD_mem bwa ci hcil)
          exact ⟨hlen4, correctBird, audioUrl, rs2, rs3, opts, hmem,
            mediaUrl_ne_empty recording.cachedAudio, ho, rfl, rfl, rfl⟩

theorem generatePhotoAudioToNameQuestion_inv (now : String) (birds : List Bird)
    (fmt : AnswerFormat) (rs : RandState) (q : Question)
    (h : ((generatePhotoAudioToNameQuestion now birds fmt) rs).1 = some q) :
    4 ≤ birds.length ∧
    ∃ (correctBird : Bird) (photoUrl audioUrl : String) (rsW rsO : RandState)
      (opts : List QuestionOption),
      correctBird ∈ birds ∧
      photoUrl ≠ "" ∧
      audioUrl ≠ "" ∧
      ((createAnswerOptions fmt
        { correctBird := correctBird,
          wrongBirds := ((getWrongAnswers birds correctBird 3) rsW).1,
          excludePhotoUrl := some photoUrl,
          excludeAudioUrl := some audioUrl }) rsO).1 = some opts ∧
      q.correctAnswer = correctBird.id ∧
      q.options = opts ∧
      q.mediaUrl = some photoUrl ∧
      q.secondaryMediaUrl = some audioUrl := by
  unfold generatePhotoAudioToNameQuestion at h
  split at h
  · rw [run_pure] at h; cases h
  · rename_i hmin
    simp only [run_bind] at h
    split at h
    · rw [run_pure] at h; cases h
    · rename_i hsub
      rw [run_bind] at h
      rw [run_bind] at h
      set bwm := filterBirdsWithBothMedia birds with hbwm
      set ci := ((randBelow bwm.length) rs).1 with hci
      set rs1 := ((randBelow bwm.length) rs).2 with hrs1
      set correctBird := bwm.getD ci default with hcb
      cases hrec : ((getRandomRecording correctBird) rs1).1 with
      | none => rw [hrec] at h; simp [run_pure] at h
      | some recording =>
        rw [hrec] at h
        simp only [run_bind, run_pure] at h
        set rs2 := ((getRandomRecording correctBird) rs1).2 with hrs2
        set photoUrl := ((getRandomPhoto correctBird) rs2).1 with hpu
        set rs3 := ((getRandomPhoto correctBird) rs2).2 with hrs3
        set audioUrl := getRecordingAudioUrl recording with hau
        set rs4 := ((getWrongAnswers birds correctBird 3) rs3).2 with hrs4
        cases ho : ((createAnswerOptions fmt
            { correctBird := correctBird,
              wrongBirds := ((getWrongAnswers birds correctBird 3) rs3).1,
              excludePhotoUrl := some photoUrl,
              excludeAudioUrl := some audioUrl }) rs4).1 with
        | none => rw [ho] at h; simp [run_pure] at h
        | some opts =>
          rw [ho] at h
          simp only [run_pure] at h
          injection h with h
          subst h
          have hlen4 : 4 ≤ birds.length := by
            unfold MIN_BIRDS_FOR_QUESTION at hmin
            omega
          have hcil : ci < bwm.length := by
            apply randBelow_lt
            omega
          have hmem : correctBird ∈ birds :=
            List.mem_of_mem_filter (getD_mem bwm ci hcil)
          exact ⟨hlen4, correctBird, photoUrl, audioUrl, rs3, rs4, opts, hmem,
            getRandomPhoto_ne_empty correctBird rs2,
            mediaUrl_ne_empty recording.cachedAudio, ho, rfl, rfl, rfl, rfl⟩

theorem generateNameToMediaQuestion_inv (now : String) (birds : List Bird)
    (fmt : AnswerFormat) (rs : RandState) (q : Question)
    (h : ((generateNameToMediaQuestion now birds fmt) rs).1 = some q) :
    4 ≤ birds.length ∧
    fmt ≠ .text ∧
    4 ≤ (filterBirdsByAnswerFormat birds fmt).length ∧
    ∃ (correctBird : Bird) (rsW rsO : RandState) (opts : List QuestionOption),
      correctBird ∈ filterBirdsByAnswerFormat birds fmt ∧
      ((createAnswerOptions fmt
        { correctBird := correctBird,
          wrongBirds := ((getWrongAnswers (filterBirdsByAnswerFormat birds fmt)
            correctBird 3) rsW).1,
          isNameToMediaQuestion := true }) rsO).1 = some opts ∧
      q.correctAnswer = correctBird.id ∧
      q.options = opts ∧
      q.mediaUrl = none := by
  unfold generateNameToMediaQuestion at h
  split at h
  · rw [run_pure] at h; cases h
  · rename_i hmin
    split at h
    · rw [run_pure] at h; cases h
    · rename_i htext
      simp only [run_bind] at h
      split at h
      · rw [run_pure] at h; cases h
      · rename_i hsub
        rw [run_bind] at h
        rw [run_bind] at h
        rw [run_bind] at h
        set vb := filterBirdsByAnswerFormat birds fmt with hvb
        set ci := ((randBelow vb.length) rs).1 with hci
        set rs1 := ((randBelow vb.length) rs).2 with hrs1
        set correctBird := vb.getD ci default with hcb
        set rs2 := ((getWrongAnswers vb correctBird 3) rs1).2 with hrs2
        cases ho : ((createAnswerOptions fmt
            { correctBird := correctBird,
              wrongBirds := ((getWrongAnswers vb correctBird 3) rs1).1,
              isNameToMediaQuestion := true }) rs2).1 with
        | none => rw [ho] at h; simp [run_pure] at h
        | some opts =>
          rw [ho] at h
          simp only [run_pure] at h
          injection h with h
          subst h
          have hlen4 : 4 ≤ birds.length := by
            unfold MIN_BIRDS_FOR_QUESTION at hmin
            omega
          have hsub4 : 4 ≤ vb.length := by
            unfold MIN_BIRDS_FOR_QUESTION at hsub
            omega
          have hcil : ci < vb.length := by
            apply randBelow_lt
            omega
          exact ⟨hlen4, htext, hsub4, correctBird, rs1, rs2, opts,
            getD_mem vb ci hcil, ho, rfl, rfl, rfl⟩

/-- The mixed generator delegates wholesale to the photo or audio
generator after one modality draw. -/
theorem generateMixedQuestion_delegates (now : String) (birds : List Bird)
    (fmt : AnswerFormat) (rs : RandState) :
    (∃ rs2, (generateMixedQuestion now birds fmt) rs
        = (generatePhotoToNameQuestion now birds fmt) rs2) ∨
    (∃ rs2, (generateMixedQuestion now birds fmt) rs
        = (generateAudioToNameQuestion now birds fmt) rs2) := by
  unfold generateMixedQuestion
  rw [run_bind]
  split
  · exact Or.inl ⟨_, rfl⟩
  · exact Or.inr ⟨_, rfl⟩

/-! ## Option-list shape: exactly four entries, exactly one correct -/

theorem options_shape (correctBird : Bird) (wrongBirds : List Bird)
    (opts : List QuestionOption)
    (hperm : (opts.map QuestionOption.id).Perm
      ((correctBird :: wrongBirds).map Bird.id))
    (hw3 : wrongBirds.length = 3)
    (hwid : ∀ b ∈ wrongBirds, b.id ≠ correctBird.id) :
    opts.length = 4 ∧
    (opts.filter (fun o => o.id = correctBird.id)).length = 1 := by
  constructor
  · have hl := hperm.length_eq
    simp only [List.length_map, List.length_cons] at hl
    omega
  · have hcount := hperm.countP_eq (fun s => decide (s = correctBird.id))
    rw [List.countP_map, List.countP_map] at hcount
    have hzero : List.countP
        ((fun s => decide (s = correctBird.id)) ∘ Bird.id) wrongBirds = 0 := by
      rw [List.countP_eq_zero]
      intro b hb
      simpa using hwid b hb
    rw [List.countP_cons_of_pos] at hcount
    · rw [hzero] at hcount
      rw [← List.countP_eq_length_filter]
      exact hcount
    · simp

/-- The format-eligible sub-pool is a sublist of the pool. -/
theorem filterBirdsByAnswerFormat_sublist (birds : List Bird) (fmt : AnswerFormat) :
    (filterBirdsByAnswerFormat birds fmt).Sublist birds := by
  cases fmt with
  | photo => exact List.filter_sublist _
  | audio => exact List.filter_sublist _
  | text => exact List.Sublist.refl _
  | mixed => exact List.Sublist.refl _

theorem photoToName_shape (now : String) (birds : List Bird) (fmt : AnswerFormat)
    (rs : RandState) (q : Question) (hnd : (birds.map Bird.id).Nodup)
    (h : ((generatePhotoToNameQuestion now birds fmt) rs).1 = some q) :
    q.options.length = 4 ∧
    (q.options.filter (fun o => o.id = q.correctAnswer)).length = 1 := by
  obtain ⟨hlen4, cb, pu, rsW, rsO, opts, hmem, hpne, ho, hca, hopts, hmedia⟩ :=
    generatePhotoToNameQuestion_inv now birds fmt rs q h
  obtain ⟨hperm, _⟩ := createAnswerOptions_sound _ _ _ _ ho
  rw [hopts, hca]
  exact options_shape cb _ opts hperm
    (getWrongAnswers_length birds cb rsW hnd hmem hlen4)
    (fun b hb => (getWrongAnswers_mem birds cb 3 rsW b hb).2)

theorem audioToName_shape (now : String) (birds : List Bird) (fmt : AnswerFormat)
    (rs : RandState) (q : Question) (hnd : (birds.map Bird.id).Nodup)
    (h : ((generateAudioToNameQuestion now birds fmt) rs).1 = some q) :
    q.options.length = 4 ∧
    (q.options.filter (fun o => o.id = q.correctAnswer)).length = 1 := by
  obtain ⟨hlen4, cb, au, rsW, rsO, opts, hmem, hane, ho, hca, hopts, hmedia⟩ :=
    generateAudioToNameQuestion_inv now birds fmt rs q h
  obtain ⟨hperm, _⟩ := createAnswerOptions_sound _ _ _ _ ho
  rw [hopts, hca]
  exact options_shape cb _ opts hperm
    (getWrongAnswers_length birds cb rsW hnd hmem hlen4)
    (fun b hb => (getWrongAnswers_mem birds cb 3 rsW b hb).2)

theorem photoAudioToName_shape (now : String) (birds : List Bird)
    (fmt : AnswerFormat) (rs : RandState) (q : Question)
    (hnd : (birds.map Bird.id).Nodup)
    (h : ((generatePhotoAudioToNameQuestion now birds fmt) rs).1 = some q) :
    q.options.length = 4 ∧
    (q.options.filter (fun o => o.id = q.correctAnswer)).length = 1 := by
  obtain ⟨hlen4, cb, pu, au, rsW, rsO, opts, hmem, hpne, hane, ho, hca, hopts, _, _⟩ :=
    generatePhotoAudioToNameQuestion_inv now birds fmt rs q h
  obtain ⟨hperm, _⟩ := createAnswerOptions_sound _ _ _ _ ho
  rw [hopts, hca]
  exact options_shape cb _ opts hperm
    (getWrongAnswers_length birds cb rsW hnd hmem hlen4)
    (fun b hb => (getWrongAnswers_mem birds cb 3 rsW b hb).2)

theorem nameToMedia_shape (now : String) (birds : List Bird) (fmt : AnswerFormat)
    (rs : RandState) (q : Question) (hnd : (birds.map Bird.id).Nodup)
    (h : ((generateNameToMediaQuestion now birds fmt) rs).1 = some q) :
    q.options.length = 4 ∧
    (q.options.filter (fun o => o.id = q.correctAnswer)).length = 1 := by
  obtain ⟨hlen4, htext, hsub4, cb, rsW, rsO, opts, hmem, ho, hca, hopts, _⟩ :=
    generateNameToMediaQuestion_inv now birds fmt rs q h
  obtain ⟨hperm, _⟩ := createAnswerOptions_sound _ _ _ _ ho
  have hndv : ((filterBirdsByAnswerFormat birds fmt).map Bird.id).Nodup :=
    hnd.sublist ((filterBirdsByAnswerFormat_sublist birds fmt).map Bird.id)
  rw [hopts, hca]
  exact options_shape cb _ opts hperm
    (getWrongAnswers_length _ cb rsW hndv hmem hsub4)
    (fun b hb => (getWrongAnswers_mem _ cb 3 rsW b hb).2)

instance : Inhabited QuestionOption :=
  ⟨{ id := "", type := .text, label := "" }⟩

instance : Inhabited Question :=
  ⟨{ id := "", questionType := .photoToName, answerFormat := .text,
     bird := default, questionText := "", correctAnswer := "", options := [] }⟩

/-- Concrete evaluation fixtures: the all-zero draw stream. -/
def wRs : RandState := ⟨fun _ => 0, 0⟩

/-- A four-species pool, each species with one photo and one recording. -/
def wBirds4 : List Bird :=
  [⟨"a", "A", [⟨"pa"⟩], [⟨"ra"⟩]⟩,
   ⟨"b", "B", [⟨"pb"⟩], [⟨"rb"⟩]⟩,
   ⟨"c", "C", [⟨"pc"⟩], [⟨"rc"⟩]⟩,
   ⟨"d", "D", [⟨"pd"⟩], [⟨"rd"⟩]⟩]

/-- The concrete photo-to-name question generated from `wBirds4`. -/
def wQ1 : Question :=
  (((runGenerator "t" wBirds4 .photoToName .text) wRs).1).getD default

/-- C1: for a pool with pairwise-distinct identifiers and at least four
members, every non-null Question from any of the five generators carries
exactly 4 options, exactly one of which bears the correct-answer id. -/
theorem generator_option_correctness (qt : QType) (now : String)
    (birds : List Bird) (fmt : AnswerFormat) (rs : RandState) (q : Question)
    (hnd : (birds.map Bird.id).Nodup) (_hmin : 4 ≤ birds.length)
    (h : ((runGenerator now birds qt fmt) rs).1 = some q) :
    q.options.length = 4 ∧
    (q.options.filter (fun o => o.id = q.correctAnswer)).length = 1 := by
  cases qt with
  | photoToName => exact photoToName_shape now birds fmt rs q hnd h
  | audioToName => exact audioToName_shape now birds fmt rs q hnd h
  | photoAudioToName => exact photoAudioToName_shape now birds fmt rs q hnd h
  | nameToMedia => exact nameToMedia_shape now birds fmt rs q hnd h
  | mixedType =>
    rcases generateMixedQuestion_delegates now birds fmt rs with ⟨rs2, heq⟩ | ⟨rs2, heq⟩
    · have h2 : ((generatePhotoToNameQuestion now birds fmt) rs2).1 = some q := by
        rw [← heq]; exact h
      exact photoToName_shape now birds fmt rs2 q hnd h2
    · have h2 : ((generateAudioToNameQuestion now birds fmt) rs2).1 = some q := by
        rw [← heq]; exact h
      exact audioToName_shape now birds fmt rs2 q hnd h2

/-- Witness for C1 at a concrete pool, generator and draw stream. -/
theorem generator_option_correctness_witness :
    (wBirds4.map Bird.id).Nodup ∧ 4 ≤ wBirds4.length ∧
    ((runGenerator "t" wBirds4 .photoToName .text) wRs).1 = some wQ1 ∧
    (wQ1.options.length = 4 ∧
     (wQ1.options.filter (fun o => o.id = wQ1.correctAnswer)).length = 1) :=
  ⟨by decide, by decide, by decide,
   generator_option_correctness .photoToName "t" wBirds4 .text wRs wQ1
     (by decide) (by decide) (by decide)⟩

/-- C2 (amended): the correct-answer option never repeats the same-modality
prompt media: its photo URL differs from a photo prompt and its audio URL
differs from an audio prompt (both at once for the combined type). -/
theorem correct_option_media_exclusion (now : String) (birds : List Bird)
    (fmt : AnswerFormat) (rs : RandState) (q : Question) :
    (((generatePhotoToNameQuestion now birds fmt) rs).1 = some q →
      ∀ opt ∈ q.options, opt.id = q.correctAnswer → opt.imageUrl ≠ q.mediaUrl) ∧
    (((generateAudioToNameQuestion now birds fmt) rs).1 = some q →
      ∀ opt ∈ q.options, opt.id = q.correctAnswer → opt.audioUrl ≠ q.mediaUrl) ∧
    (((generatePhotoAudioToNameQuestion now birds fmt) rs).1 = some q →
      ∀ opt ∈ q.options, opt.id = q.correctAnswer →
        opt.imageUrl ≠ q.mediaUrl ∧ opt.audioUrl ≠ q.secondaryMediaUrl) := by
  refine ⟨?_, ?_, ?_⟩
  · intro h opt hopt hoptid
    obtain ⟨hlen4, cb, pu, rsW, rsO, opts, hmem, hpne, ho, hca, hopts, hmedia⟩ :=
      generatePhotoToNameQuestion_inv now birds fmt rs q h
    obtain ⟨_, hexcl⟩ := createAnswerOptions_sound _ _ _ _ ho
    rw [hopts] at hopt
    rw [hca] at hoptid
    obtain ⟨hphoto, _⟩ := hexcl opt hopt hoptid
    rw [hmedia]
    intro hc
    exact hphoto pu rfl hpne pu hc rfl
  · intro h opt hopt hoptid
    obtain ⟨hlen4, cb, au, rsW, rsO, opts, hmem, hane, ho, hca, hopts, hmedia⟩ :=
      generateAudioToNameQuestion_inv now birds fmt rs q h
    obtain ⟨_, hexcl⟩ := createAnswerOptions_sound _ _ _ _ ho
    rw [hopts] at hopt
    rw [hca] at hoptid
    obtain ⟨_, haudio⟩ := hexcl opt hopt hoptid
    rw [hmedia]
    intro hc
    exact haudio au rfl hane au hc rfl
  · intro h opt hopt hoptid
    obtain ⟨hlen4, cb, pu, au, rsW, rsO, opts, hmem, hpne, hane, ho, hca, hopts,
      hmedia, hsmedia⟩ := generatePhotoAudioToNameQuestion_inv now birds fmt rs q h
    obtain ⟨_, hexcl⟩ := createAnswerOptions_sound _ _ _ _ ho
    rw [hopts] at hopt
    rw [hca] at hoptid
    obtain ⟨hphoto, haudio⟩ := hexcl opt hopt hoptid
    rw [hmedia, hsmedia]
    constructor
    · intro hc
      exact hphoto pu rfl hpne pu hc rfl
    · intro hc
      exact haudio au rfl hane au hc rfl

/-- A species whose single photo path coincides with the audio path of its
single recording, in an otherwise media-free pool. -/
def cePool : List Bird :=
  [⟨"a", "A", [⟨"x"⟩], [⟨"x"⟩]⟩,
   ⟨"b", "B", [], []⟩,
   ⟨"c", "C", [], []⟩,
   ⟨"d", "D", [], []⟩]

/-- The audio-to-name question with photo answers generated from `cePool`. -/
def ceQ2 : Question :=
  (((generateAudioToNameQuestion "t" cePool .photo) wRs).1).getD default

/-- Counterexample to C2 as stated: the correct option of the generated
audio-to-name question carries an image URL equal to the prompt media URL. -/
theorem correct_option_media_collision :
    ((generateAudioToNameQuestion "t" cePool .photo) wRs).1 = some ceQ2 ∧
    ∃ opt ∈ ceQ2.options, opt.id = ceQ2.correctAnswer ∧
      opt.imageUrl ≠ none ∧ opt.imageUrl = ceQ2.mediaUrl := by
  decide

/-- Witness for the amended C2 at a concrete pool and draw stream. -/
theorem correct_option_media_exclusion_witness :
    ((generatePhotoToNameQuestion "t" wBirds4 .text) wRs).1 = some wQ1 ∧
    (∀ opt ∈ wQ1.options, opt.id = wQ1.correctAnswer →
      opt.imageUrl ≠ wQ1.mediaUrl) :=
  ⟨by decide,
   (correct_option_media_exclusion "t" wBirds4 .text wRs wQ1).1 (by decide)⟩

/-! ## Orchestrator retry bounds -/

theorem genLoop_stop (now : String) (birds : List Bird) (settings : QuizSettings)
    (k : Nat) (rs : RandState) (hk : ¬ k < MAX_GENERATION_ATTEMPTS) :
    (genLoop now birds settings k) rs = ((none, k), rs) := by
  rw [genLoop, dif_neg hk]
  rfl

theorem genLoop_step_success (now : String) (birds : List Bird)
    (settings : QuizSettings) (k : Nat) (rs rs2 : RandState) (q : Question)
    (hk : k < MAX_GENERATION_ATTEMPTS)
    (hA : (genAttempt now birds settings) rs = (some q, rs2)) :
    (genLoop now birds settings k) rs = ((some q, k), rs2) := by
  rw [genLoop, dif_pos hk, run_bind, hA]
  rfl

theorem genLoop_step_fail (now : String) (birds : List Bird)
    (settings : QuizSettings) (k : Nat) (rs rs2 : RandState)
    (hk : k < MAX_GENERATION_ATTEMPTS)
    (hA : (genAttempt now birds settings) rs = (none, rs2)) :
    (genLoop now birds settings k) rs = (genLoop now birds settings (k + 1)) rs2 := by
  rw [genLoop, dif_pos hk, run_bind, hA]

theorem genLoop_bounds (now : String) (birds : List Bird)
    (settings : QuizSettings) :
    ∀ (n k : Nat), MAX_GENERATION_ATTEMPTS - k ≤ n →
      k ≤ MAX_GENERATION_ATTEMPTS → ∀ (rs : RandState),
      k ≤ ((genLoop now birds settings k) rs).1.2 ∧
      ((genLoop now birds settings k) rs).1.2 ≤ MAX_GENERATION_ATTEMPTS ∧
      (((genLoop now birds settings k) rs).1.1 = none →
        ((genLoop now birds settings k) rs).1.2 = MAX_GENERATION_ATTEMPTS) := by
  intro n
  induction n with
  | zero =>
    intro k hn hk rs
    have hkeq : k = MAX_GENERATION_ATTEMPTS := by omega
    rw [genLoop_stop now birds settings k rs (by omega)]
    exact ⟨by simp, by simpa using hk, fun _ => by simpa using hkeq⟩
  | succ n ih =>
    intro k hn hk rs
    by_cases hlt : k < MAX_GENERATION_ATTEMPTS
    · cases hA : (genAttempt now birds settings) rs with
      | mk qv rs2 =>
        cases qv with
        | some q =>
          rw [genLoop_step_success now birds settings k rs rs2 q hlt hA]
          exact ⟨by simp, by simpa using Nat.le_of_lt hlt, fun hc => by simp at hc⟩
        | none =>
          rw [genLoop_step_fail now birds settings k rs rs2 hlt hA]
          obtain ⟨h1, h2, h3⟩ := ih (k + 1) (by omega) (by omega) rs2
          exact ⟨by omega, h2, h3⟩
    · rw [genLoop_stop now birds settings k rs hlt]
      have hkeq : k = MAX_GENERATION_ATTEMPTS := by omega
      exact ⟨by simp, by simpa using hk, fun _ => by simpa using hkeq⟩

theorem genLoop_all_fail (now : String) (birds : List Bird)
    (settings : QuizSettings)
    (hfail : ∀ rs, ((genAttempt now birds settings) rs).1 = none) :
    ∀ (n k : Nat), MAX_GENERATION_ATTEMPTS - k ≤ n →
      k ≤ MAX_GENERATION_ATTEMPTS → ∀ (rs : RandState),
      ((genLoop now birds settings k) rs).1 = (none, MAX_GENERATION_ATTEMPTS) := by
  intro n
  induction n with
  | zero =>
    intro k hn hk rs
    have hkeq : k = MAX_GENERATION_ATTEMPTS := by omega
    rw [genLoop_stop now birds settings k rs (by omega), hkeq]
  | succ n ih =>
    intro k hn hk rs
    by_cases hlt : k < MAX_GENERATION_ATTEMPTS
    · have hA : (genAttempt now birds settings) rs
          = (none, ((genAttempt now birds settings) rs).2) := by
        have := hfail rs
        cases hAv : (genAttempt now birds settings) rs with
        | mk v s2 => rw [hAv] at this; simp at this; rw [this]
      rw [genLoop_step_fail now birds settings k rs _ hlt hA]
      exact ih (k + 1) (by omega) (by omega) _
    · rw [genLoop_stop now birds settings k rs hlt]
      have hkeq : k = MAX_GENERATION_ATTEMPTS := by omega
      simp [hkeq]

/-- A pool without recordings makes every audio-to-name attempt fail. -/
theorem audioAttempt_none (now : String) (birds : List Bird)
    (settings : QuizSettings)
    (hrec : ∀ b ∈ birds, b.recordings = [])
    (htypes : settings.enabledQuestionTypes = [QType.audioToName]) :
    ∀ rs, ((genAttempt now birds settings) rs).1 = none := by
  intro rs
  unfold genAttempt
  rw [run_bind, run_bind]
  rw [htypes]
  have hq : ([QType.audioToName].getD (((randBelow ([QType.audioToName]).length) rs).1)
      QType.mixedType) = QType.audioToName := by
    have : (((randBelow ([QType.audioToName]).length) rs).1) < 1 := by
      apply randBelow_lt
      simp
    interval_cases (((randBelow ([QType.audioToName]).length) rs).1)
    rfl
  rw [hq]
  show ((generateAudioToNameQuestion now birds _) _).1 = none
  unfold generateAudioToNameQuestion
  split
  · rfl
  · have hempty : filterBirdsWithRecordings birds = [] := by
      rw [filterBirdsWithRecordings, List.filter_eq_nil_iff]
      intro b hb
      simp [hrec b hb]
    simp only [run_bind]
    rw [hempty]
    rfl

/-- C3: the orchestrator returns null immediately for pools under four
species; otherwise the retry loop makes at most ten attempts, returns the
first non-null question, and exhausts exactly ten attempts when — as with
audio-to-name over a recording-free pool — every attempt fails. -/
theorem generateQuestion_retry_termination (now : String) (birds : List Bird)
    (settings : QuizSettings) (rs : RandState) :
    MAX_GENERATION_ATTEMPTS = 10 ∧
    (birds.length < 4 → (generateQuestion now birds settings) rs = (none, rs)) ∧
    (((genLoop now birds settings 0) rs).1.2 ≤ 10 ∧
      (((genLoop now birds settings 0) rs).1.1 = none →
        ((genLoop now birds settings 0) rs).1.2 = 10)) ∧
    (¬ birds.length < 4 →
      ((generateQuestion now birds settings) rs).1
        = ((genLoop now birds settings 0) rs).1.1) ∧
    (∀ k q rs2, k < 10 → (genAttempt now birds settings) rs = (some q, rs2) →
      (genLoop now birds settings k) rs = ((some q, k), rs2)) ∧
    ((∀ b ∈ birds, b.recordings = []) →
      settings.enabledQuestionTypes = [QType.audioToName] →
      ((generateQuestion now birds settings) rs).1 = none ∧
      ((genLoop now birds settings 0) rs).1 = (none, 10)) := by
  have hmax : MAX_GENERATION_ATTEMPTS = 10 := rfl
  refine ⟨hmax, ?_, ?_, ?_, ?_, ?_⟩
  · intro hlt
    unfold generateQuestion
    rw [if_pos (by unfold MIN_BIRDS_FOR_QUESTION; omega)]
    rfl
  · obtain ⟨h1, h2, h3⟩ := genLoop_bounds now birds settings
      MAX_GENERATION_ATTEMPTS 0 (by omega) (by omega) rs
    exact ⟨h2, h3⟩
  · intro hge
    unfold generateQuestion
    rw [if_neg (by unfold MIN_BIRDS_FOR_QUESTION; omega)]
    rw [run_bind]
    rfl
  · intro k q rs2 hk hA
    exact genLoop_step_success now birds settings k rs rs2 q hk hA
  · intro hrec htypes
    have hfail := audioAttempt_none now birds settings hrec htypes
    have hloop := genLoop_all_fail now birds settings hfail
      MAX_GENERATION_ATTEMPTS 0 (by omega) (by omega) rs
    constructor
    · by_cases hlt : birds.length < 4
      · unfold generateQuestion
        rw [if_pos (by unfold MIN_BIRDS_FOR_QUESTION; omega)]
        rfl
      · unfold generateQuestion
        rw [if_neg (by unfold MIN_BIRDS_FOR_QUESTION; omega)]
        rw [run_bind]
        show ((genLoop now birds settings 0) rs).1.1 = none
        rw [hloop]
    · exact hloop

/-- A four-species pool in which no species has a recording. -/
def wBirdsNoAudio : List Bird :=
  [⟨"a", "A", [⟨"pa"⟩], []⟩,
   ⟨"b", "B", [⟨"pb"⟩], []⟩,
   ⟨"c", "C", [⟨"pc"⟩], []⟩,
   ⟨"d", "D", [⟨"pd"⟩], []⟩]

/-- Witness for C3: audio-to-name only over a recording-free pool returns
null after exactly ten attempts. -/
theorem generateQuestion_retry_termination_witness :
    (∀ b ∈ wBirdsNoAudio, b.recordings = []) ∧
    ((generateQuestion "t" wBirdsNoAudio
      ⟨[QType.audioToName], [AnswerFormat.text]⟩) wRs).1 = none ∧
    ((genLoop "t" wBirdsNoAudio
      ⟨[QType.audioToName], [AnswerFormat.text]⟩ 0) wRs).1 = (none, 10) :=
  ⟨by decide,
   (generateQuestion_retry_termination "t" wBirdsNoAudio
     ⟨[QType.audioToName], [AnswerFormat.text]⟩ wRs).2.2.2.2.2
     (by decide) rfl⟩

/-! ## Generator null guards -/

/-- A four-species pool of which only the first has a photo. -/
def c4Pool : List Bird :=
  [⟨"a", "A", [⟨"pa"⟩], []⟩,
   ⟨"b", "B", [], []⟩,
   ⟨"c", "C", [], []⟩,
   ⟨"d", "D", [], []⟩]

/-- Counterexample to C4 as stated: the photo-to-name generator succeeds
although its modality-eligible sub-pool holds a single species. -/
theorem generator_small_subpool_success :
    (filterBirdsWithPhotos c4Pool).length = 1 ∧
    ((generatePhotoToNameQuestion "t" c4Pool .text) wRs).1 ≠ none := by
  decide

/-- C4 (amended): every generator returns null for a full pool under four
species; the three media-prompt generators additionally return null only
when the eligible sub-pool is empty (not: smaller than four), while
name-to-media alone requires its format-eligible sub-pool to hold at
least four species. -/
theorem generator_null_guards (qt : QType) (now : String) (birds : List Bird)
    (fmt : AnswerFormat) (rs : RandState) :
    (birds.length < 4 → ((runGenerator now birds qt fmt) rs).1 = none) ∧
    (filterBirdsWithPhotos birds = [] →
      ((generatePhotoToNameQuestion now birds fmt) rs).1 = none) ∧
    (filterBirdsWithRecordings birds = [] →
      ((generateAudioToNameQuestion now birds fmt) rs).1 = none) ∧
    (filterBirdsWithBothMedia birds = [] →
      ((generatePhotoAudioToNameQuestion now birds fmt) rs).1 = none) ∧
    ((filterBirdsByAnswerFormat birds fmt).length < 4 →
      ((generateNameToMediaQuestion now birds fmt) rs).1 = none) := by
  refine ⟨?_, ?_, ?_, ?_, ?_⟩
  · intro hlt
    have hpos : birds.length < MIN_BIRDS_FOR_QUESTION := by
      unfold MIN_BIRDS_FOR_QUESTION; omega
    cases qt with
    | photoToName =>
      show ((generatePhotoToNameQuestion now birds fmt) rs).1 = none
      unfold generatePhotoToNameQuestion
      rw [if_pos hpos]; rfl
    | audioToName =>
      show ((generateAudioToNameQuestion now birds fmt) rs).1 = none
      unfold generateAudioToNameQuestion
      rw [if_pos hpos]; rfl
    | photoAudioToName =>
      show ((generatePhotoAudioToNameQuestion now birds fmt) rs).1 = none
      unfold generatePhotoAudioToNameQuestion
      rw [if_pos hpos]; rfl
    | nameToMedia =>
      show ((generateNameToMediaQuestion now birds fmt) rs).1 = none
      unfold generateNameToMediaQuestion
      rw [if_pos hpos]; rfl
    | mixedType =>
      rcases generateMixedQuestion_delegates now birds fmt rs with ⟨rs2, heq⟩ | ⟨rs2, heq⟩
      · show ((generateMixedQuestion now birds fmt) rs).1 = none
        rw [heq]
        unfold generatePhotoToNameQuestion
        rw [if_pos hpos]; rfl
      · show ((generateMixedQuestion now birds fmt) rs).1 = none
        rw [heq]
        unfold generateAudioToNameQuestion
        rw [if_pos hpos]; rfl
  · intro hempty
    unfold generatePhotoToNameQuestion
    split
    · rfl
    · simp only [run_bind]
      rw [hempty]
      rfl
  · intro hempty
    unfold generateAudioToNameQuestion
    split
    · rfl
    · simp only [run_bind]
      rw [hempty]
      rfl
  · intro hempty
    unfold generatePhotoAudioToNameQuestion
    split
    · rfl
    · simp only [run_bind]
      rw [hempty]
      rfl
  · intro hlt
    unfold generateNameToMediaQuestion
    split
    · rfl
    · split
      · rfl
      · simp only [run_bind]
        rw [if_pos (by unfold MIN_BIRDS_FOR_QUESTION; omega)]
        rfl

/-- Witness for the amended C4: a three-species pool makes every
generator fail, and an empty photo sub-pool stops photo-to-name. -/
theorem generator_null_guards_witness :
    ([] : List Bird).length < 4 ∧
    ((runGenerator "t" ([] : List Bird) .photoToName .text) wRs).1 = none ∧
    filterBirdsWithPhotos wBirdsNoAudio ≠ [] := by
  refine ⟨by decide, ?_, by decide⟩
  exact (generator_null_guards .photoToName "t" [] .text wRs).1 (by decide)

/-! ## Media picker exclusion (claim level) -/

/-- Counterexample to C5 as stated: `selectRandomMedia` falls back to the
excluded photo and the excluded recording when they are the only media. -/
theorem selectRandomMedia_returns_excluded :
    ((selectRandomMedia ⟨"a", "A", [⟨"x"⟩], [⟨"y"⟩]⟩
      ⟨some "x", some "y"⟩) wRs).1 = (some ⟨"x"⟩, some ⟨"y"⟩) := by
  decide

/-- C5 (amended): the dataLoader pickers return null when every media item
of the kind carries the excluded key and never return the excluded item;
`selectRandomMedia` instead falls back to the first photo or recording,
which may be the excluded one. -/
theorem media_picker_exclusion (bird : Bird) (excludeUrl : String) (rs : RandState) :
    ((∀ p ∈ bird.photos, mediaUrl p.cached = excludeUrl) →
      ((getRandomPhotoDifferentFrom bird excludeUrl) rs).1 = none) ∧
    (∀ u, ((getRandomPhotoDifferentFrom bird excludeUrl) rs).1 = some u →
      u ≠ excludeUrl) ∧
    ((∀ r ∈ bird.recordings, getRecordingAudioUrl r = excludeUrl) →
      ((getRandomRecordingDifferentFrom bird excludeUrl) rs).1 = none) ∧
    (∀ r, ((getRandomRecordingDifferentFrom bird excludeUrl) rs).1 = some r →
      getRecordingAudioUrl r ≠ excludeUrl) :=
  ⟨fun h => getRandomPhotoDifferentFrom_all_excluded bird excludeUrl rs h,
   fun u hu => getRandomPhotoDifferentFrom_ne bird excludeUrl rs u hu,
   fun h => getRandomRecordingDifferentFrom_all_excluded bird excludeUrl rs h,
   fun r hr => getRandomRecordingDifferentFrom_ne bird excludeUrl rs r hr⟩

/-- Witness for the amended C5 at a single-photo species. -/
theorem media_picker_exclusion_witness :
    (∀ p ∈ (⟨"a", "A", [⟨"x"⟩], []⟩ : Bird).photos, mediaUrl p.cached = "/x") ∧
    ((getRandomPhotoDifferentFrom ⟨"a", "A", [⟨"x"⟩], []⟩ "/x") wRs).1 = none :=
  ⟨by decide, (media_picker_exclusion ⟨"a", "A", [⟨"x"⟩], []⟩ "/x" wRs).1 (by decide)⟩

/-! ## Zero-photo species in photo options (C6) -/

/-- A four-species pool of which the first has two photos, the rest none. -/
def c6Pool : List Bird :=
  [⟨"a", "A", [⟨"pa1"⟩, ⟨"pa2"⟩], []⟩,
   ⟨"b", "B", [], []⟩,
   ⟨"c", "C", [], []⟩,
   ⟨"d", "D", [], []⟩]

/-- The photo-to-name question with photo answers generated from `c6Pool`. -/
def c6Q : Question :=
  (((generatePhotoToNameQuestion "t" c6Pool .photo) wRs).1).getD default

/-- C6 (code divergence): a zero-photo distractor receives an image-only
option carrying the placeholder URL, because `getRandomPhoto` returns the
placeholder instead of a falsy value and the null guard of the generator never
fires. -/
theorem zero_photo_distractor_gets_photo_option :
    ((generatePhotoToNameQuestion "t" c6Pool .photo) wRs).1 = some c6Q ∧
    ∃ opt ∈ c6Q.options, opt.type = OptionType.imageOnly ∧
      opt.imageUrl = some "/placeholder-bird.jpg" ∧
      ∃ b ∈ c6Pool, b.id = opt.id ∧ b.photos = [] := by
  decide

/-! ## Rolling buffer (C7) -/

theorem recordAnswerPure_answers (p : Progress) (a : AnswerRecord) :
    (recordAnswerPure p a).rollingStats.answers =
      (if p.rollingStats.answers.length ≥ ROLLING_BUFFER_SIZE
       then p.rollingStats.answers.tail
       else p.rollingStats.answers) ++ [a] := rfl

/-- The rolling buffer after a fold of recorded answers holds exactly the
last twenty entries of initial-buffer-then-records, in order. -/
theorem rolling_fold (recs : List AnswerRecord) :
    ∀ (p : Progress), p.rollingStats.answers.length ≤ 20 →
    (List.foldl recordAnswerPure p recs).rollingStats.answers
      = (p.rollingStats.answers ++ recs).drop
          (p.rollingStats.answers.length + recs.length - 20) := by
  induction recs with
  | nil =>
    intro p hp
    simp [Nat.sub_eq_zero_of_le hp]
  | cons r rest ih =>
    intro p hp
    rw [List.foldl_cons]
    have hstep := recordAnswerPure_answers p r
    by_cases hfull : p.rollingStats.answers.length ≥ ROLLING_BUFFER_SIZE
    · have h20 : p.rollingStats.answers.length = 20 := by
        unfold ROLLING_BUFFER_SIZE at hfull
        omega
      have hnew : (recordAnswerPure p r).rollingStats.answers
          = p.rollingStats.answers.tail ++ [r] := by
        rw [hstep, if_pos hfull]
      have hlen : (recordAnswerPure p r).rollingStats.answers.length ≤ 20 := by
        rw [hnew, List.length_append, List.length_tail, h20]
        simp
      rw [ih _ hlen, hnew]
      obtain ⟨x, t, hxa⟩ : ∃ x t, p.rollingStats.answers = x :: t := by
        cases ha : p.rollingStats.answers with
        | nil => rw [ha] at h20; simp at h20
        | cons x t => exact ⟨x, t, rfl⟩
      rw [hxa]
      have ht19 : t.length = 19 := by
        rw [hxa] at h20
        simpa using h20
      simp only [List.tail_cons]
      have hidx1 : (t ++ [r]).length + rest.length - 20 = rest.length := by
        simp [ht19]
      have hidx2 : (x :: t).length + (r :: rest).length - 20 = rest.length + 1 := by
        simp [ht19]
      rw [hidx1, hidx2]
      simp only [List.cons_append, List.drop_succ_cons, List.append_assoc,
        List.singleton_append, List.nil_append]
    · have hnew : (recordAnswerPure p r).rollingStats.answers
          = p.rollingStats.answers ++ [r] := by
        rw [hstep, if_neg hfull]
      have hlen : (recordAnswerPure p r).rollingStats.answers.length ≤ 20 := by
        rw [hnew]
        unfold ROLLING_BUFFER_SIZE at hfull
        simp
        omega
      rw [ih _ hlen, hnew]
      rw [List.append_assoc]
      simp only [List.singleton_append]
      congr 1
      simp
      omega

/-- C7: the rolling buffer is a strict capacity-20 FIFO: its length never
exceeds 20, and after 25 recorded answers it holds answers 6 through 25
in recording order. -/
theorem rolling_buffer_fifo (recs : List AnswerRecord) :
    ROLLING_BUFFER_SIZE = 20 ∧
    (List.foldl recordAnswerPure DEFAULT_PROGRESS recs).rollingStats.answers.length
      ≤ 20 ∧
    (recs.length = 25 →
      (List.foldl recordAnswerPure DEFAULT_PROGRESS recs).rollingStats.answers
        = recs.drop 5) := by
  have h := rolling_fold recs DEFAULT_PROGRESS (by simp [DEFAULT_PROGRESS])
  have hnil : DEFAULT_PROGRESS.rollingStats.answers = [] := rfl
  rw [hnil] at h
  simp only [List.nil_append, List.length_nil, Nat.zero_add] at h
  refine ⟨rfl, ?_, ?_⟩
  · rw [h]
    simp only [List.length_drop]
    omega
  · intro h25
    rw [h, h25]

/-- A fixed answer record used for concrete evaluation. -/
def wRec : AnswerRecord :=
  { timestamp := "ts", speciesId := "a", correct := true,
    questionType := .photoToName, answerFormat := .text }

/-- Witness for C7 with twenty-five concrete recorded answers. -/
theorem rolling_buffer_fifo_witness :
    (List.replicate 25 wRec).length = 25 ∧
    (List.foldl recordAnswerPure DEFAULT_PROGRESS
      (List.replicate 25 wRec)).rollingStats.answers
      = (List.replicate 25 wRec).drop 5 :=
  ⟨by decide, (rolling_buffer_fifo (List.replicate 25 wRec)).2.2 (by decide)⟩

/-! ## RECORD_ANSWER reference semantics (C8) -/

/-- A fresh heap holding one Progress object at addresses 0 through 3. -/
def c8Heap : ProgressHeap :=
  { overallCells := fun _ => DEFAULT_PROGRESS.overallStats,
    modeCells := fun _ => DEFAULT_PROGRESS.modeStats,
    speciesCells := fun _ => [],
    rollingCells := fun _ => DEFAULT_PROGRESS.rollingStats,
    nextAddr := 4 }

/-- The Progress object before the transition. -/
def c8Ref : ProgressRef := ⟨0, 1, 2, 3⟩

/-- C8 (code divergence): after `RECORD_ANSWER`, the `overallStats`,
`modeStats` and `speciesStats` objects that the previous Progress value
still references have been mutated in place — the previous value is not
left unchanged — while the new value shares those references. -/
theorem record_answer_mutates_previous_progress :
    (c8Heap.overallCells c8Ref.overallRef).totalQuestions = 0 ∧
    (((recordAnswerHeap c8Heap c8Ref wRec).1.overallCells
        c8Ref.overallRef).totalQuestions = 1 ∧
     ((recordAnswerHeap c8Heap c8Ref wRec).1.modeCells
        c8Ref.modeRef).total = 1 ∧
     (recordAnswerHeap c8Heap c8Ref wRec).1.speciesCells c8Ref.speciesRef ≠ [] ∧
     c8Heap.speciesCells c8Ref.speciesRef = []) ∧
    ((recordAnswerHeap c8Heap c8Ref wRec).2.overallRef = c8Ref.overallRef ∧
     (recordAnswerHeap c8Heap c8Ref wRec).2.modeRef = c8Ref.modeRef ∧
     (recordAnswerHeap c8Heap c8Ref wRec).2.speciesRef = c8Ref.speciesRef ∧
     (recordAnswerHeap c8Heap c8Ref wRec).2.rollingRef ≠ c8Ref.rollingRef) := by
  refine ⟨rfl, ⟨rfl, rfl, ?_, rfl⟩, rfl, rfl, rfl, by decide⟩
  decide

/-! ## ANSWER transition (C9) -/

/-- Counterexample question and already-answered state. -/
def c9Q : Question :=
  { id := "q", questionType := .photoToName, answerFormat := .text,
    bird := default, questionText := "", correctAnswer := "a",
    options := [] }

def c9State : QuizStateR :=
  { currentQuestion := some c9Q, answered := true, selectedAnswer := some "a",
    isCorrect := some true, progress := DEFAULT_PROGRESS }

/-- Counterexample to C9 as stated: with a current question already
answered, the reducer-based ANSWER transition still changes the state. -/
theorem answer_when_already_answered_changes_state :
    c9State.answered = true ∧
    answerQuestionContext c9State "b" "ts" ≠ c9State := by
  constructor
  · rfl
  · intro hc
    have := congrArg QuizStateR.selectedAnswer hc
    simp [answerQuestionContext, answerQuestionReducer, c9State, c9Q] at this

/-- C9 (amended): `checkAnswer` (useQuiz) is a no-op exactly under its
guard and otherwise marks the answer and compares it with the
correct-answer key; the reducer path guards only on a missing current
question and otherwise applies unconditionally — even when already
answered. -/
theorem answer_transition (prev : UQState) (s : QuizStateR) (answerId : String)
    (isFirstTry : Bool) (timestamp : String) :
    ((prev.currentQuestion = none ∨ prev.answered = true) →
      checkAnswer prev answerId isFirstTry = prev) ∧
    (∀ q, prev.currentQuestion = some q → prev.answered = false →
      (checkAnswer prev answerId isFirstTry).answered = true ∧
      (checkAnswer prev answerId isFirstTry).selectedAnswer = some answerId ∧
      (checkAnswer prev answerId isFirstTry).isCorrect
        = some (answerId == q.correctAnswer)) ∧
    (s.currentQuestion = none → answerQuestionContext s answerId timestamp = s) ∧
    (∀ q, s.currentQuestion = some q →
      (answerQuestionContext s answerId timestamp).answered = true ∧
      (answerQuestionContext s answerId timestamp).selectedAnswer = some answerId ∧
      (answerQuestionContext s answerId timestamp).isCorrect
        = some (answerId == q.correctAnswer)) := by
  refine ⟨?_, ?_, ?_, ?_⟩
  · intro hguard
    unfold checkAnswer
    rcases hguard with hq | ha
    · rw [hq]
    · rw [ha]
      cases prev.currentQuestion <;> rfl
  · intro q hq ha
    unfold checkAnswer
    rw [hq, ha]
    exact ⟨rfl, rfl, rfl⟩
  · intro hq
    unfold answerQuestionContext
    rw [hq]
  · intro q hq
    unfold answerQuestionContext
    rw [hq]
    exact ⟨rfl, rfl, rfl⟩

instance : Inhabited UQState :=
  ⟨{ currentQuestion := none, questionNumber := 0, totalQuestions := 10,
     score := 0, streak := 0, answered := false, selectedAnswer := none,
     isCorrect := none }⟩

/-- Witness for the amended C9 at a concrete state. -/
theorem answer_transition_witness :
    c9State.currentQuestion = some c9Q ∧
    ((answerQuestionContext c9State "a" "ts").answered = true ∧
     (answerQuestionContext c9State "a" "ts").selectedAnswer = some "a" ∧
     (answerQuestionContext c9State "a" "ts").isCorrect
       = some ("a" == c9Q.correctAnswer)) :=
  ⟨rfl, (answer_transition default c9State "a" true "ts").2.2.2 c9Q rfl⟩

/-! ## Legacy versus modular generator (C10) -/

/-- Name-to-media with the mixed answer format as the only enabled
configuration. -/
def c10Settings : QuizSettings :=
  { enabledQuestionTypes := [QType.nameToMedia],
    enabledAnswerFormats := [AnswerFormat.mixed] }

theorem legacyGenLoop_step_success (now : String) (birds : List Bird)
    (settings : QuizSettings) (k : Nat) (rs rs2 : RandState) (q : Question)
    (hk : k < MAX_GENERATION_ATTEMPTS)
    (hA : (legacyGenAttempt now birds settings) rs = (some q, rs2)) :
    (legacyGenLoop now birds settings k) rs = ((some q, k), rs2) := by
  rw [legacyGenLoop, dif_pos hk, run_bind, hA]
  rfl

/-- The legacy question produced on the first attempt for `c10Settings`. -/
def c10LQ : Question :=
  (((legacyGenAttempt "t" wBirds4 c10Settings) wRs).1).getD default

/-- The modular question produced on the first attempt for `c10Settings`. -/
def c10MQ : Question :=
  (((genAttempt "t" wBirds4 c10Settings) wRs).1).getD default

/-- Counterexample to C10 as stated: on the same pool, settings and draw
stream the legacy and modular orchestrators produce different questions
(the legacy mixed name-to-media option draws from four display types, the
modular one from two). -/
theorem orchestrators_diverge :
    ((legacyGenerateQuestion "t" wBirds4 c10Settings) wRs).1
      ≠ ((generateQuestion "t" wBirds4 c10Settings) wRs).1 := by
  have hL1 : ((legacyGenAttempt "t" wBirds4 c10Settings) wRs).1 = some c10LQ := by
    decide
  have hM1 : ((genAttempt "t" wBirds4 c10Settings) wRs).1 = some c10MQ := by
    decide
  have hLA : (legacyGenAttempt "t" wBirds4 c10Settings) wRs
      = (some c10LQ, ((legacyGenAttempt "t" wBirds4 c10Settings) wRs).2) :=
    Prod.ext hL1 rfl
  have hMA : (genAttempt "t" wBirds4 c10Settings) wRs
      = (some c10MQ, ((genAttempt "t" wBirds4 c10Settings) wRs).2) :=
    Prod.ext hM1 rfl
  have hL : ((legacyGenerateQuestion "t" wBirds4 c10Settings) wRs).1 = some c10LQ := by
    unfold legacyGenerateQuestion
    rw [if_neg (by decide), run_bind,
      legacyGenLoop_step_success "t" wBirds4 c10Settings 0 wRs _ c10LQ
        (by decide) hLA]
    rfl
  have hM : ((generateQuestion "t" wBirds4 c10Settings) wRs).1 = some c10MQ := by
    unfold generateQuestion
    rw [if_neg (by decide), run_bind,
      genLoop_step_success "t" wBirds4 c10Settings 0 wRs _ c10MQ
        (by decide) hMA]
    rfl
  rw [hL, hM]
  decide

/-- C10 (amended): the legacy and modular `createAnswerOptions` agree
observationally on the text, photo and audio answer formats for every
input and draw stream; on the mixed format the modular builder draws
name-to-media display types from `NAME_TO_MEDIA_ANSWER_TYPES` where the
legacy builder always draws from `MIXED_ANSWER_TYPES`. -/
theorem createAnswerOptions_legacy_agreement (correctBird : Bird)
    (wrongBirds : List Bird) (fmt : AnswerFormat) (e1 e2 : Option String)
    (flag : Bool) :
    (fmt ≠ .mixed →
      legacyCreateAnswerOptions correctBird wrongBirds fmt e1 e2
        = createAnswerOptions fmt
            { correctBird := correctBird, wrongBirds := wrongBirds,
              excludePhotoUrl := e1, excludeAudioUrl := e2,
              isNameToMediaQuestion := flag }) ∧
    NAME_TO_MEDIA_ANSWER_TYPES = [OptionType.imageOnly, OptionType.audioOnly] ∧
    MIXED_ANSWER_TYPES = [OptionType.text, OptionType.textImage,
      OptionType.imageOnly, OptionType.audioOnly] := by
  refine ⟨?_, rfl, rfl⟩
  intro hne
  cases fmt with
  | text => rfl
  | photo => rfl
  | audio => rfl
  | mixed => exact absurd rfl hne

/-- Witness for the amended C10 at the text format. -/
theorem createAnswerOptions_legacy_agreement_witness :
    (AnswerFormat.text ≠ AnswerFormat.mixed) ∧
    legacyCreateAnswerOptions ⟨"a", "A", [], []⟩ [] .text none none
      = createAnswerOptions .text
          { correctBird := ⟨"a", "A", [], []⟩, wrongBirds := [] } :=
  ⟨by decide,
   (createAnswerOptions_legacy_agreement ⟨"a", "A", [], []⟩ [] .text
     none none false).1 (by decide)⟩

end BirdQuiz
